import Mathlib

/-!
# osp-magnum: test-application scene helpers, the Newton tri-mesh builder, flat-shader assignment

A shallow embedding of

* `src/test_application/activescenes/scene_misc.cpp`
  (`create_materials`, `add_floor`, `setup_camera_ctrl`, `setup_camera_free`,
  `setup_thrower`),
* `src/osp/Active/SysNewton.h` (`SysNewton::shape_create_tri_mesh_static`), and
* `src/osp/Shaders/Flat.cpp` (`shader::assign_flat`).

Containers are lists, references become explicit state passing, a failed
assertion, an out-of-range access or a thrown exception is `none`.
Floating-point values are kept abstract (a type parameter `F` with the
operations the code applies to them), so nothing here depends on rounding.
-/

namespace OspMagnum

/-! ## Containers -/

/-- The `std::vector::resize(n, d)` member: keep the first `n` elements, pad with `d`. -/
def vec_resize {α : Type} (v : List α) (n : Nat) (d : α) : List α :=
  v.take n ++ List.replicate (n - v.length) d

/-- Checked write `v[i] = x` (`KeyedVec::operator[]`, `std::vector::at`):
`none` when `i` is out of range. -/
def vec_assign {α : Type} (v : List α) (i : Nat) (x : α) : Option (List α) :=
  if i < v.length then some (v.set i x) else none

/-- Modelled from the spec: `bitvector_resize` (osp/bitvector.h) is not under
src/. A bit vector is a list of bits; resizing to `n` keeps the bits below `n`
and clears the new ones. -/
def bitvector_resize (bv : List Bool) (n : Nat) : List Bool :=
  vec_resize bv n false

/-- Modelled from the spec: the bit vector `set(i)` member is not under src/.
Sets bit `i`; `none` when `i` is not below the size. -/
def bitvector_set (bv : List Bool) (i : Nat) : Option (List Bool) :=
  vec_assign bv i true

/-- Bit test, `false` outside the vector. -/
def bitvector_test (bv : List Bool) (i : Nat) : Bool :=
  bv.getD i false

/-! ## Id registry -/

/-- Modelled from the spec: `lgrn::IdRegistryStl` (the type of `m_materialIds`,
`m_activeIds`, `m_drawIds` and of the builder's pipeline ids) is not under
src/. An id is an index into a bit array, bit `i` telling whether id `i`
exists; the capacity is the length of the array. -/
structure IdRegistry where
  m_exists : List Bool
deriving DecidableEq, Repr

namespace IdRegistry

/-- Number of ids the registry has room for. -/
def capacity (r : IdRegistry) : Nat := r.m_exists.length

/-- Whether `id` currently exists. -/
def id_exists (r : IdRegistry) (id : Nat) : Bool := r.m_exists.getD id false

/-- Modelled from the spec: `IdRegistryStl::create` is not under src/. It hands
out the lowest id that does not exist; when every slot is taken the registry
first grows (to `grow capacity`, and by at least one slot). This is the
allocation order that `LGRN_ASSERT(int(mat) == i)` in `create_materials` and
the spec's "4 material slots (indices 0-3)" rely on. -/
def create (grow : Nat → Nat) (r : IdRegistry) : Nat × IdRegistry :=
  let i := r.m_exists.findIdx (fun b => !b)
  let bits :=
    if i < r.m_exists.length then r.m_exists
    else vec_resize r.m_exists (max (grow r.capacity) (r.capacity + 1)) false
  (i, ⟨bits.set i true⟩)

end IdRegistry

/-! ## Scene data (the fields the modelled functions touch) -/

abbrev ActiveEnt := Nat
abbrev DrawEnt := Nat
abbrev MaterialId := Nat

/-- The `Magnum::Vector3` type over an abstract scalar. -/
structure Vector3 (F : Type) where
  x : F
  y : F
  z : F
deriving DecidableEq, Repr

/-- The scalar and matrix operations the code uses, kept abstract: `lit q` is
the `float` literal written `q` in the source, `default_transform` the matrix
of a default-constructed `ACompTransform`, the others the Magnum operations of
the same name. -/
structure MagnumOps (F M : Type) where
  lit : ℚ → F
  sub : F → F → F
  mul : F → F → F
  neg : F → F
  default_transform : M
  scaling : Vector3 F → M
  translation : M → Vector3 F
  backward : M → Vector3 F

/-- Constructor `Vector3{s}`: all three components equal to `s`. -/
def Vector3.splat {F : Type} (s : F) : Vector3 F := ⟨s, s, s⟩

/-- Vector difference `u - v`, componentwise. -/
def Vector3.vsub {F M : Type} (ops : MagnumOps F M) (u v : Vector3 F) : Vector3 F :=
  ⟨ops.sub u.x v.x, ops.sub u.y v.y, ops.sub u.z v.z⟩

/-- Vector times scalar `v * s`, componentwise. -/
def Vector3.vscale {F M : Type} (ops : MagnumOps F M) (v : Vector3 F) (s : F) : Vector3 F :=
  ⟨ops.mul v.x s, ops.mul v.y s, ops.mul v.z s⟩

/-- Vector negation `-v`, componentwise. -/
def Vector3.vneg {F M : Type} (ops : MagnumOps F M) (v : Vector3 F) : Vector3 F :=
  ⟨ops.neg v.x, ops.neg v.y, ops.neg v.z⟩

/-- The enumerators of `osp::phys::EShape` that the source names. -/
inductive EShape where
  | Box
  | Sphere
  | Cylinder
deriving DecidableEq, Repr

/-- The `SpawnShape` aggregate, built at scene_misc.cpp:137 and :247. -/
structure SpawnShape (F : Type) where
  m_position : Vector3 F
  m_velocity : Vector3 F
  m_size : Vector3 F
  m_mass : F
  m_shape : EShape
deriving DecidableEq, Repr

/-- The shape spawner `ACtxShapeSpawner`: its spawn-request vector. -/
structure ACtxShapeSpawner (F : Type) where
  m_spawnRequest : List (SpawnShape F)
deriving DecidableEq, Repr

/-- A `Material`: the set of draw entities using it and its dirty list. -/
structure Material where
  m_ents : List Bool
  m_dirty : List DrawEnt
deriving DecidableEq, Repr

/-- The per-draw-entity properties `BasicDrawProps`, restricted to the member
the source names; a new entry is not opaque. -/
structure BasicDrawProps where
  m_opaque : Bool
deriving DecidableEq, Repr

/-- The drawing context `ACtxDrawing`, restricted to the members `create_materials` and `add_floor`
use. `Mesh` is the type of a reference-counted mesh owner. -/
structure ACtxDrawing (Mesh : Type) where
  m_drawIds : IdRegistry
  m_materialIds : IdRegistry
  m_materials : List Material
  m_visible : List Bool
  m_drawBasic : List BasicDrawProps
  m_mesh : List (Option Mesh)
  m_meshDirty : List DrawEnt
  m_needDrawTf : List Bool
  m_activeToDraw : List (Option DrawEnt)

/-! ## create_materials (scene_misc.cpp:54-69) -/

/-- The loop `for (int i = 0; i < count; ++i)` of `create_materials`, with
`k = count - i` iterations left. Each iteration creates one material id and
checks `LGRN_ASSERT(int(mat) == i)`; a failed assertion is `none`. As `i`
stays within `[0, count)` and `count` is an `int`, the comparison is the one
of the natural numbers. The ids created so far are collected in order. -/
def create_materials_loop (grow : Nat → Nat) :
    Nat → Nat → IdRegistry → List MaterialId → Option (IdRegistry × List MaterialId)
  | 0, _, ids, created => some (ids, created)
  | k + 1, i, ids, created =>
    let r := ids.create grow
    if r.1 = i then create_materials_loop grow k (i + 1) r.2 (created ++ [r.1])
    else none

/-- The function `create_materials`: runs the loop, then `m_materials.resize(count)`. A
negative `count` converts to a `size_t` beyond `max_size()`, so the resize
throws (`none`). Returns the drawing context and the ids created, in order. -/
def create_materials {Mesh : Type} (grow : Nat → Nat) (rDrawing : ACtxDrawing Mesh)
    (count : Int) : Option (ACtxDrawing Mesh × List MaterialId) :=
  match create_materials_loop grow count.toNat 0 rDrawing.m_materialIds [] with
  | none => none
  | some (ids, created) =>
    if count < 0 then none
    else some ({ rDrawing with
                  m_materialIds := ids
                  m_materials := vec_resize rDrawing.m_materials count.toNat ⟨[], []⟩ },
               created)

/-- Bits of a registry whose existing ids are exactly `0 .. i-1`. -/
def IdRegistry.Dense (i : Nat) (bits : List Bool) : Prop :=
  ∀ j, bits.getD j false = decide (j < i)

/-! ## add_floor (scene_misc.cpp:71-144) -/

/-- Modelled from the spec: `ACtxSceneGraph` (osp/Active/basic.h) is not under
src/. The scene graph keeps, for every entity, its parent; `none` is the
hierarchy root (the null entity). -/
structure ACtxSceneGraph where
  m_entParent : List (Option ActiveEnt)
deriving DecidableEq, Repr

/-- Modelled from the spec: `ACtxSceneGraph::resize` is not under src/. Makes
room for `ents` entities; new entries have no parent. -/
def ACtxSceneGraph.resize (g : ACtxSceneGraph) (ents : Nat) : ACtxSceneGraph :=
  ⟨vec_resize g.m_entParent ents none⟩

/-- The parent recorded for `ent` (`none`: the hierarchy root). -/
def ACtxSceneGraph.parent (g : ACtxSceneGraph) (ent : ActiveEnt) : Option ActiveEnt :=
  g.m_entParent.getD ent none

/-- Modelled from the spec: `SubtreeBuilder` (osp/Active/SysSceneGraph.h) is
not under src/. A builder adds entities below `m_root`; `m_declared` is the
number of descendants it was created for, `m_added` how many of them have been
added so far. -/
structure SubtreeBuilder where
  m_root : Option ActiveEnt
  m_declared : Nat
  m_added : Nat
deriving DecidableEq, Repr

/-- Modelled from the spec: `SysSceneGraph::add_descendants(rScnGraph, count)`
is not under src/. Called without a root argument it declares `count` new
descendants of the hierarchy root. -/
def SysSceneGraph.add_descendants (descendantCount : Nat) : SubtreeBuilder :=
  ⟨none, descendantCount, 0⟩

/-- Modelled from the spec: `SubtreeBuilder::add_child(ent, descendantCount)` is
not under src/. Links `ent` below the root of the builder, counts `ent` and
the `descendantCount` descendants declared for it as added, and returns (the
builder for the descendants of `ent`, this builder, the graph). Returns `none`
when that exceeds what the builder was declared for or `ent` is out of range. -/
def SubtreeBuilder.add_child (b : SubtreeBuilder) (g : ACtxSceneGraph) (ent : ActiveEnt)
    (descendantCount : Nat) : Option (SubtreeBuilder × SubtreeBuilder × ACtxSceneGraph) :=
  if b.m_declared < b.m_added + (1 + descendantCount) then none
  else
    match vec_assign g.m_entParent ent b.m_root with
    | none => none
    | some parents =>
      some (⟨some ent, descendantCount, 0⟩,
            ⟨b.m_root, b.m_declared, b.m_added + (1 + descendantCount)⟩,
            ⟨parents⟩)

/-- The scene context `ACtxBasic`, restricted to the members `add_floor` uses; `m_transform` is
the `ACompTransform` storage as a list of (entity, matrix). -/
structure ACtxBasic (M : Type) where
  m_activeIds : IdRegistry
  m_scnGraph : ACtxSceneGraph
  m_transform : List (ActiveEnt × M)

/-- Modelled from the spec: `ACtxDrawing::resize_active` (osp/Active/drawing.h)
is not under src/. Sizes the per-active-entity containers to `size`. -/
def ACtxDrawing.resize_active {Mesh : Type} (d : ACtxDrawing Mesh) (size : Nat) :
    ACtxDrawing Mesh :=
  { d with
    m_needDrawTf := bitvector_resize d.m_needDrawTf size
    m_activeToDraw := vec_resize d.m_activeToDraw size none }

/-- Modelled from the spec: `ACtxDrawing::resize_draw` (osp/Active/drawing.h) is
not under src/. Sizes the per-draw-entity containers to the capacity of
`m_drawIds`. -/
def ACtxDrawing.resize_draw {Mesh : Type} (d : ACtxDrawing Mesh) : ACtxDrawing Mesh :=
  { d with
    m_visible := bitvector_resize d.m_visible d.m_drawIds.capacity
    m_drawBasic := vec_resize d.m_drawBasic d.m_drawIds.capacity ⟨false⟩
    m_mesh := vec_resize d.m_mesh d.m_drawIds.capacity none }

/-- A bit vector together with the indices its `set` member was called with, in
call order. -/
structure LoggedBits where
  bits : List Bool
  sets : List Nat
deriving DecidableEq, Repr

/-- Member `set(i)` on a logged bit vector: sets the bit and records the call. -/
def LoggedBits.set (b : LoggedBits) (i : Nat) : Option LoggedBits :=
  match bitvector_set b.bits i with
  | none => none
  | some bits => some ⟨bits, b.sets ++ [i]⟩

/-- What `add_floor` leaves behind: the three contexts it writes, the entities
it created, the indices it passed to `m_needDrawTf.set` in call order, and the
two subtree builders as they are when the function returns. -/
structure AddFloorResult (F M Mesh : Type) where
  rBasic : ACtxBasic M
  rDrawing : ACtxDrawing Mesh
  rSpawner : ACtxShapeSpawner F
  floorRootEnt : ActiveEnt
  floorMeshEnt : ActiveEnt
  floorMeshDrawEnt : DrawEnt
  needDrawTf_sets : List Nat
  builder : SubtreeBuilder
  bldFloorRoot : SubtreeBuilder

/-- The function `add_floor`. `quick_add_mesh` stands for the functor returned by
`SysRender::gen_drawable_mesh_adder` (not under src/); the reference counts it
maintains are not among the modelled members. `m_transform.emplace` appends
to the component storage. -/
def add_floor {F M Mesh : Type} (ops : MagnumOps F M) (grow : Nat → Nat)
    (quick_add_mesh : String → Mesh)
    (rBasic : ACtxBasic M) (rDrawing : ACtxDrawing Mesh) (rSpawner : ACtxShapeSpawner F)
    (materialId : MaterialId) : Option (AddFloorResult F M Mesh) := do
  -- Material &rMaterial = rDrawing.m_materials.at(materialId);
  let rMaterial ← rDrawing.m_materials[materialId]?
  let sc_floorSize : Vector3 F := ⟨ops.lit 64, ops.lit 64, ops.lit 1⟩
  let sc_floorPos : Vector3 F := ⟨ops.lit 0, ops.lit 0, ops.lit (-1.005)⟩
  -- Create floor root and mesh entity
  let c1 := rBasic.m_activeIds.create grow
  let floorRootEnt := c1.1
  let c2 := c1.2.create grow
  let floorMeshEnt := c2.1
  let activeIds := c2.2
  let c3 := rDrawing.m_drawIds.create grow
  let floorMeshDrawEnt := c3.1
  -- Resize some containers to fit all existing entities
  let scnGraph := rBasic.m_scnGraph.resize activeIds.capacity
  let d1 : ACtxDrawing Mesh := { rDrawing with m_drawIds := c3.2 }
  let d2 := (d1.resize_active activeIds.capacity).resize_draw
  let ents := bitvector_resize rMaterial.m_ents d2.m_drawIds.capacity
  let transform1 := rBasic.m_transform ++ [(floorRootEnt, ops.default_transform)]
  -- Add mesh to floor mesh entity
  let activeToDraw ← vec_assign d2.m_activeToDraw floorMeshEnt (some floorMeshDrawEnt)
  let mesh ← vec_assign d2.m_mesh floorMeshDrawEnt (some (quick_add_mesh "grid64solid"))
  let meshDirty := d2.m_meshDirty ++ [floorMeshDrawEnt]
  -- Add mesh visualizer material to floor mesh entity
  let ents ← bitvector_set ents floorMeshDrawEnt
  let dirty := rMaterial.m_dirty ++ [floorMeshDrawEnt]
  -- Add transform, draw transform, opaque, and visible entity
  let transform2 := transform1 ++ [(floorMeshEnt, ops.scaling sc_floorSize)]
  let props ← d2.m_drawBasic[floorMeshDrawEnt]?
  let drawBasic ← vec_assign d2.m_drawBasic floorMeshDrawEnt { props with m_opaque := true }
  let visible ← bitvector_set d2.m_visible floorMeshDrawEnt
  let needDrawTf ← LoggedBits.set ⟨d2.m_needDrawTf, []⟩ floorRootEnt
  let needDrawTf ← needDrawTf.set floorMeshEnt
  let builder := SysSceneGraph.add_descendants 2
  -- Add floor root to hierarchy root
  let a1 ← builder.add_child scnGraph floorRootEnt 1
  -- Parent floor mesh entity to floor root entity
  let a2 ← a1.1.add_child a1.2.2 floorMeshEnt 0
  -- Add collider to floor root entity
  let spawnRequest := rSpawner.m_spawnRequest ++
    [{ m_position := sc_floorPos, m_velocity := sc_floorSize, m_size := sc_floorSize,
       m_mass := ops.lit 0, m_shape := EShape.Box }]
  pure {
    rBasic := { m_activeIds := activeIds, m_scnGraph := a2.2.2, m_transform := transform2 }
    rDrawing := { d2 with
      m_materials := d2.m_materials.set materialId ⟨ents, dirty⟩
      m_visible := visible
      m_drawBasic := drawBasic
      m_mesh := mesh
      m_meshDirty := meshDirty
      m_needDrawTf := needDrawTf.bits
      m_activeToDraw := activeToDraw }
    rSpawner := ⟨spawnRequest⟩
    floorRootEnt := floorRootEnt
    floorMeshEnt := floorMeshEnt
    floorMeshDrawEnt := floorMeshDrawEnt
    needDrawTf_sets := needDrawTf.sets
    builder := a1.2.1
    bldFloorRoot := a2.2.1 }

/-! ## Task bodies (scene_misc.cpp:174-177, 203-207, 239-255) -/

abbrev EButtonControlIndex := Nat

/-- The camera controller `ACtxCameraController` (CameraController.h, not under
src/): the two
members the source names, `m_transform` and `m_controls`, and the remaining
members as one opaque value. -/
structure ACtxCameraController (M Ctl Other : Type) where
  m_transform : M
  m_controls : Ctl
  m_other : Other

/-- The `Camera` (not under src/): `m_transform`, the member the source names, and
the remaining members as one opaque value. -/
structure Camera (M Other : Type) where
  m_transform : M
  m_other : Other

/-- Body of "Position Rendering Camera according to Camera Controller",
`(ACtxCameraController const& rCamCtrl, Camera &rCamera)`. Returns both
arguments as they are after the call. -/
def position_camera_func {M Ctl Other CamOther : Type}
    (rCamCtrl : ACtxCameraController M Ctl Other) (rCamera : Camera M CamOther) :
    ACtxCameraController M Ctl Other × Camera M CamOther :=
  (rCamCtrl, { rCamera with m_transform := rCamCtrl.m_transform })

/-- Body of "Move Camera controller",
`(ACtxCameraController& rCamCtrl, float const deltaTimeIn)`.
`SysCameraController::update_view` and `update_move` are not under src/ and
are taken as parameters acting on the controller. -/
def move_camera_func {F Ctrl : Type} (update_view : Ctrl → F → Ctrl)
    (update_move : Ctrl → F → Bool → Ctrl) (rCamCtrl : Ctrl) (deltaTimeIn : F) : Ctrl :=
  update_move (update_view rCamCtrl deltaTimeIn) deltaTimeIn true

/-- Body of "Throw spheres when pressing space",
`(ACtxCameraController& rCamCtrl, ACtxShapeSpawner& rSpawner,
EButtonControlIndex btnThrow)`. `button_held` stands for
`ControlSubscriber::button_held` (not under src/), a query that reads the state
of a button and changes nothing. Returns both reference arguments as they are
after the call. -/
def thrower_func {F M Ctl Other : Type} (ops : MagnumOps F M)
    (button_held : Ctl → EButtonControlIndex → Bool)
    (rCamCtrl : ACtxCameraController M Ctl Other) (rSpawner : ACtxShapeSpawner F)
    (btnThrow : EButtonControlIndex) :
    ACtxCameraController M Ctl Other × ACtxShapeSpawner F :=
  if button_held rCamCtrl.m_controls btnThrow then
    let camTf := rCamCtrl.m_transform
    let speed := ops.lit 120
    let dist := ops.lit 8
    (rCamCtrl,
     ⟨rSpawner.m_spawnRequest ++
        [{ m_position := Vector3.vsub ops (ops.translation camTf)
                           (Vector3.vscale ops (ops.backward camTf) dist)
           m_velocity := Vector3.vscale ops (Vector3.vneg ops (ops.backward camTf)) speed
           m_size := Vector3.splat (ops.lit 1)
           m_mass := ops.lit 1
           m_shape := EShape.Sphere }]⟩)
  else (rCamCtrl, rSpawner)

/-! ## Sessions, pipelines and task descriptors -/

abbrev PipelineId := Nat
abbrev StageId := Nat
abbrev TopDataId := Nat

/-- The stage enumerators the source names (identifiers.h is not under src/);
their numeric values are parameters. -/
structure StageNames where
  Run : StageId
  Ready : StageId
  Modify : StageId
  Modify_ : StageId
deriving DecidableEq, Repr

/-- A (pipeline, stage) reference such as `tgSR.render(Run)`. -/
structure TplPipelineStage where
  pipeline : PipelineId
  stage : StageId
deriving DecidableEq, Repr

/-- The types stored in the data slots the source reads or writes. -/
inductive TypeTag where
  | UserInputHandler
  | ACtxCameraController
  | Camera
  | float
  | ACtxShapeSpawner
  | EButtonControlIndex
deriving DecidableEq, Repr

/-- A task as declared through the builder chain: `name`, `run_on`,
`sync_with`, `args`, and the parameter types of the function given to `func`. -/
structure Task where
  name : String
  run_on : List TplPipelineStage
  sync_with : List TplPipelineStage
  args : List TopDataId
  params : List TypeTag
deriving DecidableEq, Repr

/-- The pipelines of `PlSceneRenderer` the source names. -/
structure PlSceneRenderer where
  render : PipelineId
  camera : PipelineId
deriving DecidableEq, Repr

/-- The pipeline of `PlCameraCtrl`. -/
structure PlCameraCtrl where
  camCtrl : PipelineId
deriving DecidableEq, Repr

/-- The pipeline of `PlWindowApp` the source names. -/
structure PlWindowApp where
  inputs : PipelineId
deriving DecidableEq, Repr

/-- The pipeline of `PlShapeSpawn` the source names. -/
structure PlShapeSpawn where
  spawnRequest : PipelineId
deriving DecidableEq, Repr

/-- The task declared at scene_misc.cpp:168-177. -/
def task_position_camera (st : StageNames) (tgSR : PlSceneRenderer) (tgCmCt : PlCameraCtrl)
    (idCamCtrl idCamera : TopDataId) : Task :=
  { name := "Position Rendering Camera according to Camera Controller"
    run_on := [⟨tgSR.render, st.Run⟩]
    sync_with := [⟨tgCmCt.camCtrl, st.Ready⟩, ⟨tgSR.camera, st.Modify⟩]
    args := [idCamCtrl, idCamera]
    params := [TypeTag.ACtxCameraController, TypeTag.Camera] }

/-- The task declared at scene_misc.cpp:197-207. -/
def task_move_camera (st : StageNames) (tgWin : PlWindowApp) (tgCmCt : PlCameraCtrl)
    (idCamCtrl idDeltaTimeIn : TopDataId) : Task :=
  { name := "Move Camera controller"
    run_on := [⟨tgWin.inputs, st.Run⟩]
    sync_with := [⟨tgCmCt.camCtrl, st.Modify⟩]
    args := [idCamCtrl, idDeltaTimeIn]
    params := [TypeTag.ACtxCameraController, TypeTag.float] }

/-- The task declared at scene_misc.cpp:233-255. -/
def task_thrower (st : StageNames) (tgWin : PlWindowApp) (tgCmCt : PlCameraCtrl)
    (tgShSp : PlShapeSpawn) (idCamCtrl idSpawner idBtnThrow : TopDataId) : Task :=
  { name := "Throw spheres when pressing space"
    run_on := [⟨tgWin.inputs, st.Run⟩]
    sync_with := [⟨tgCmCt.camCtrl, st.Ready⟩, ⟨tgShSp.spawnRequest, st.Modify_⟩]
    args := [idCamCtrl, idSpawner, idBtnThrow]
    params := [TypeTag.ACtxCameraController, TypeTag.ACtxShapeSpawner,
               TypeTag.EButtonControlIndex] }

/-- Self-wait (spec 4.2, step 2): some `sync_with` entry names the pipeline and
stage of one of the task's own `run_on` entries. -/
def Task.is_self_wait (t : Task) : Bool :=
  t.sync_with.any (fun s => t.run_on.any (fun r => r.pipeline == s.pipeline && r.stage == s.stage))

/-- Modelled from the spec: `ArrayView<entt::any> topData` with `top_emplace`
and `top_get` (osp/tasks/top_utils.h) is not under src/. Only the type held by
each slot is tracked; `none` is an empty slot. -/
abbrev TopData := TopDataId → Option TypeTag

/-- Modelled from the spec: `top_emplace<T>(topData, id, ...)` is not under
src/. Puts a value of type `T` into slot `id`. -/
def top_emplace (topData : TopData) (id : TopDataId) (T : TypeTag) : TopData :=
  fun i => if i = id then some T else topData i

/-- Modelled from the spec: `top_get<T>(topData, id)` is not under src/. The
type-checked access to slot `id`; succeeds when the slot holds a `T`. -/
def top_get (topData : TopData) (id : TopDataId) (T : TypeTag) : Option Unit :=
  if topData id = some T then some () else none

/-- Positional binding of a task (spec 6): as many ids as parameters, and the
slot named by the i-th id holds the i-th parameter type. -/
def Task.binds (t : Task) (topData : TopData) : Prop :=
  t.args.length = t.params.length ∧ t.args.map topData = t.params.map some

/-- Modelled from the spec: `TopTaskBuilder` and the `Tasks` it fills
(osp/tasks/builder.h) are not under src/. Pipeline ids come from an id
registry; `m_pipelineParents` holds the parent of each pipeline (`none`: no
parent); `m_tasks` are the tasks added so far. -/
structure TopTaskBuilder where
  m_pipelineIds : IdRegistry
  m_pipelineParents : List (Option PipelineId)
  m_tasks : List Task
deriving DecidableEq, Repr

/-- Modelled from the spec: `create_pipeline(stage_set) -> PipelineId` (spec
4.1), reached through `Session::create_pipelines`, is not under src/. Creates
one pipeline id and sizes the parent table to the registry. -/
def TopTaskBuilder.create_pipeline (grow : Nat → Nat) (b : TopTaskBuilder) :
    PipelineId × TopTaskBuilder :=
  let c := b.m_pipelineIds.create grow
  (c.1, { b with
            m_pipelineIds := c.2
            m_pipelineParents := vec_resize b.m_pipelineParents c.2.capacity none })

/-- Modelled from the spec: `pipeline(id).parent(parentId)` (spec 4.1) is not
under src/. Registers `parentId` as the parent of `id`; `none` when `id` is
outside the parent table. -/
def TopTaskBuilder.pipeline_parent (b : TopTaskBuilder) (id parentId : PipelineId) :
    Option TopTaskBuilder :=
  match vec_assign b.m_pipelineParents id (some parentId) with
  | none => none
  | some ps => some { b with m_pipelineParents := ps }

/-- The parent registered for pipeline `p`. -/
def TopTaskBuilder.parent (b : TopTaskBuilder) (p : PipelineId) : Option PipelineId :=
  b.m_pipelineParents.getD p none

/-- The parent chains of the builder have no cycle: no pipeline reaches itself
by following parents one or more times. -/
def TopTaskBuilder.Acyclic (b : TopTaskBuilder) : Prop :=
  ∀ p, ¬ Relation.TransGen (fun x y => b.parent x = some y) p p

/-- A `Session`: the data ids, pipelines and tasks one setup function
contributes. -/
structure Session where
  m_data : List TopDataId
  m_pipelines : List PipelineId
  m_tasks : List Task
deriving DecidableEq, Repr

/-- What a setup function leaves behind. -/
structure SetupResult where
  out : Session
  rBuilder : TopTaskBuilder
  topData : TopData

/-- The function `setup_camera_ctrl` (scene_misc.cpp:146-180). `idUserInput` and `idCamera`
are the ids unpacked from `windowApp` and `scnRender`, `tgSR` the pipelines of
`scnRender`, `idCamCtrl` the id handed out by `OSP_DECLARE_CREATE_DATA_IDS`
(the macros are not under src/). -/
def setup_camera_ctrl (st : StageNames) (grow : Nat → Nat) (rBuilder : TopTaskBuilder)
    (topData : TopData) (idUserInput idCamera : TopDataId) (tgSR : PlSceneRenderer)
    (idCamCtrl : TopDataId) : Option SetupResult := do
  -- auto &rUserInput = top_get< osp::input::UserInputHandler >(topData, idUserInput);
  top_get topData idUserInput TypeTag.UserInputHandler
  -- auto const tgCmCt = out.create_pipelines<PlCameraCtrl>(rBuilder);
  let c := rBuilder.create_pipeline grow
  let tgCmCt : PlCameraCtrl := ⟨c.1⟩
  let topData1 := top_emplace topData idCamCtrl TypeTag.ACtxCameraController
  -- rBuilder.pipeline(tgCmCt.camCtrl).parent(tgSR.render);
  let b1 ← c.2.pipeline_parent tgCmCt.camCtrl tgSR.render
  let task := task_position_camera st tgSR tgCmCt idCamCtrl idCamera
  pure { out := { m_data := [idCamCtrl], m_pipelines := [tgCmCt.camCtrl], m_tasks := [task] }
         rBuilder := { b1 with m_tasks := b1.m_tasks ++ [task] }
         topData := topData1 }

/-- The function `setup_camera_free` (scene_misc.cpp:182-210). `idDeltaTimeIn`
and `idCamCtrl` are the ids unpacked from `scene` and `cameraCtrl`. -/
def setup_camera_free (st : StageNames) (rBuilder : TopTaskBuilder) (topData : TopData)
    (tgWin : PlWindowApp) (idDeltaTimeIn : TopDataId) (tgCmCt : PlCameraCtrl)
    (idCamCtrl : TopDataId) : Option SetupResult :=
  let task := task_move_camera st tgWin tgCmCt idCamCtrl idDeltaTimeIn
  some { out := { m_data := [], m_pipelines := [], m_tasks := [task] }
         rBuilder := { rBuilder with m_tasks := rBuilder.m_tasks ++ [task] }
         topData := topData }

/-- The function `setup_thrower` (scene_misc.cpp:213-258). `idBtnThrow` is the id handed out
by `out.acquire_data<1>(topData)` (not under src/). -/
def setup_thrower (st : StageNames) (rBuilder : TopTaskBuilder) (topData : TopData)
    (tgWin : PlWindowApp) (tgCmCt : PlCameraCtrl) (idCamCtrl : TopDataId)
    (tgShSp : PlShapeSpawn) (idSpawner : TopDataId) (idBtnThrow : TopDataId) :
    Option SetupResult := do
  -- auto &rCamCtrl = top_get< ACtxCameraController > (topData, idCamCtrl);
  top_get topData idCamCtrl TypeTag.ACtxCameraController
  let topData1 := top_emplace topData idBtnThrow TypeTag.EButtonControlIndex
  let task := task_thrower st tgWin tgCmCt tgShSp idCamCtrl idSpawner idBtnThrow
  pure { out := { m_data := [idBtnThrow], m_pipelines := [], m_tasks := [task] }
         rBuilder := { rBuilder with m_tasks := rBuilder.m_tasks ++ [task] }
         topData := topData1 }

/-! ## One tick of the three tasks on the data slots -/

/-- The value a data slot holds, for the slots the three tasks name. -/
inductive TopValue (F M Ctl Other CamOther : Type) where
  | camCtrl (v : ACtxCameraController M Ctl Other)
  | camera (v : Camera M CamOther)
  | float (v : F)
  | spawner (v : ACtxShapeSpawner F)
  | button (v : EButtonControlIndex)

/-- Modelled from the spec: the data slots with their values (`topData` at run
time; the registry is not under src/). An empty slot is `none`. -/
abbrev TopValues (F M Ctl Other CamOther : Type) :=
  TopDataId → Option (TopValue F M Ctl Other CamOther)

/-- Modelled from the spec: argument binding at dispatch (spec 6) is not under
src/. Reads the values behind a list of slot ids, in order; `none` when a
slot is empty. -/
def top_read {F M Ctl Other CamOther : Type} (slots : TopValues F M Ctl Other CamOther) :
    List TopDataId → Option (List (TopValue F M Ctl Other CamOther))
  | [] => some []
  | id :: ids =>
    match slots id, top_read slots ids with
    | some v, some vs => some (v :: vs)
    | _, _ => none

/-- Modelled from the spec: the other half of dispatch. A task function works
on the slots themselves, so the values its arguments have when it returns are
the values of the slots afterwards, position by position. -/
def top_write {F M Ctl Other CamOther : Type} (slots : TopValues F M Ctl Other CamOther) :
    List TopDataId → List (TopValue F M Ctl Other CamOther) → TopValues F M Ctl Other CamOther
  | id :: ids, v :: vs => top_write (fun i => if i = id then some v else slots i) ids vs
  | _, _ => slots

/-- Modelled from the spec: dispatch of one task (spec 6): the function
receives the values behind the declared ids, resolved positionally. `none`
when a slot is empty or holds a value of another type than the parameter. -/
def dispatch {F M Ctl Other CamOther : Type} (slots : TopValues F M Ctl Other CamOther)
    (args : List TopDataId)
    (func : List (TopValue F M Ctl Other CamOther) →
              Option (List (TopValue F M Ctl Other CamOther))) :
    Option (TopValues F M Ctl Other CamOther) :=
  match top_read slots args with
  | none => none
  | some vals =>
    match func vals with
    | none => none
    | some outs => some (top_write slots args outs)

/-- The function given to `.func` at scene_misc.cpp:174, on slot values. -/
def position_camera_task {F M Ctl Other CamOther : Type} :
    List (TopValue F M Ctl Other CamOther) → Option (List (TopValue F M Ctl Other CamOther))
  | [TopValue.camCtrl rCamCtrl, TopValue.camera rCamera] =>
    some [TopValue.camCtrl (position_camera_func rCamCtrl rCamera).1,
          TopValue.camera (position_camera_func rCamCtrl rCamera).2]
  | _ => none

/-- The function given to `.func` at scene_misc.cpp:203, on slot values. -/
def move_camera_task {F M Ctl Other CamOther : Type}
    (update_view : ACtxCameraController M Ctl Other → F → ACtxCameraController M Ctl Other)
    (update_move : ACtxCameraController M Ctl Other → F → Bool →
                     ACtxCameraController M Ctl Other) :
    List (TopValue F M Ctl Other CamOther) → Option (List (TopValue F M Ctl Other CamOther))
  | [TopValue.camCtrl rCamCtrl, TopValue.float deltaTimeIn] =>
    some [TopValue.camCtrl (move_camera_func update_view update_move rCamCtrl deltaTimeIn),
          TopValue.float deltaTimeIn]
  | _ => none

/-- The function given to `.func` at scene_misc.cpp:239, on slot values. -/
def thrower_task {F M Ctl Other CamOther : Type} (ops : MagnumOps F M)
    (button_held : Ctl → EButtonControlIndex → Bool) :
    List (TopValue F M Ctl Other CamOther) → Option (List (TopValue F M Ctl Other CamOther))
  | [TopValue.camCtrl rCamCtrl, TopValue.spawner rSpawner, TopValue.button btnThrow] =>
    some [TopValue.camCtrl (thrower_func ops button_held rCamCtrl rSpawner btnThrow).1,
          TopValue.spawner (thrower_func ops button_held rCamCtrl rSpawner btnThrow).2,
          TopValue.button btnThrow]
  | _ => none

/-- The three tasks scene_misc.cpp registers. -/
inductive SceneTask where
  | move_camera
  | position_camera
  | thrower
deriving DecidableEq, Repr

/-- The pipelines, stages and slot ids the three declarations are written
with. -/
structure SceneDecl where
  st : StageNames
  tgSR : PlSceneRenderer
  tgCmCt : PlCameraCtrl
  tgWin : PlWindowApp
  tgShSp : PlShapeSpawn
  idCamCtrl : TopDataId
  idCamera : TopDataId
  idDeltaTimeIn : TopDataId
  idSpawner : TopDataId
  idBtnThrow : TopDataId
deriving DecidableEq, Repr

/-- The declaration (`run_on`, `sync_with`, `args`) of each task. -/
def SceneTask.descriptor (env : SceneDecl) : SceneTask → Task
  | SceneTask.move_camera =>
    task_move_camera env.st env.tgWin env.tgCmCt env.idCamCtrl env.idDeltaTimeIn
  | SceneTask.position_camera =>
    task_position_camera env.st env.tgSR env.tgCmCt env.idCamCtrl env.idCamera
  | SceneTask.thrower =>
    task_thrower env.st env.tgWin env.tgCmCt env.tgShSp env.idCamCtrl env.idSpawner
      env.idBtnThrow

/-- The function of each task. -/
def SceneTask.func {F M Ctl Other CamOther : Type} (ops : MagnumOps F M)
    (update_view : ACtxCameraController M Ctl Other → F → ACtxCameraController M Ctl Other)
    (update_move : ACtxCameraController M Ctl Other → F → Bool →
                     ACtxCameraController M Ctl Other)
    (button_held : Ctl → EButtonControlIndex → Bool) :
    SceneTask → List (TopValue F M Ctl Other CamOther) →
      Option (List (TopValue F M Ctl Other CamOther))
  | SceneTask.move_camera => move_camera_task update_view update_move
  | SceneTask.position_camera => position_camera_task
  | SceneTask.thrower => thrower_task ops button_held

/-- Modelled from the spec: the executor is not under src/. Within a tick the
tasks run one after the other, each to completion (spec 5), each dispatched
with the ids of its own declaration. -/
def run_tasks {F M Ctl Other CamOther : Type} (env : SceneDecl) (ops : MagnumOps F M)
    (update_view : ACtxCameraController M Ctl Other → F → ACtxCameraController M Ctl Other)
    (update_move : ACtxCameraController M Ctl Other → F → Bool →
                     ACtxCameraController M Ctl Other)
    (button_held : Ctl → EButtonControlIndex → Bool) :
    List SceneTask → TopValues F M Ctl Other CamOther →
      Option (TopValues F M Ctl Other CamOther)
  | [], slots => some slots
  | t :: ts, slots =>
    match dispatch slots (t.descriptor env).args
        (t.func ops update_view update_move button_held) with
    | none => none
    | some slots1 => run_tasks env ops update_view update_move button_held ts slots1

/-- Modelled from the spec: ordering guarantee (1) of spec 5, the executor not
being under src/. Task `a` must complete before task `b` starts when `a`
declares `Modify` on a pipeline on which `b` declares `Ready`. -/
def must_precede (st : StageNames) (a b : Task) : Bool :=
  a.sync_with.any (fun x =>
    x.stage == st.Modify &&
      b.sync_with.any (fun y => y.pipeline == x.pipeline && y.stage == st.Ready))

/-- An order of execution the executor may choose: no task runs before one
that must precede it. -/
def respects_order (env : SceneDecl) (sched : List SceneTask) : Prop :=
  sched.Pairwise (fun x y => must_precede env.st (y.descriptor env) (x.descriptor env) = false)

/-! ## SysNewton::shape_create_tri_mesh_static (SysNewton.h:210-242) -/

abbrev NewtonCollision := Nat

/-- The enumerators of `ECollisionShape` that the source names. -/
inductive ECollisionShape where
  | NONE
  | TERRAIN
deriving DecidableEq, Repr

/-- The component `ACompCollisionShape`; `none` is `nullptr`. -/
structure ACompCollisionShape where
  m_collision : Option NewtonCollision
  m_shape : ECollisionShape
deriving DecidableEq, Repr

/-- One call of a `newton_tree_collision_*` / `newton_create_tree_collision`
member (declared at SysNewton.h:193-201, defined outside src/), with its
arguments; for `create_tree_collision` also the pointer it returned, for
`add_face` the `vertexCount` vertices read through `vertexPtr`. -/
inductive NewtonCall (V : Type) where
  | create_tree_collision (shapeId : Int) (result : NewtonCollision)
  | tree_collision_begin_build (treeCollision : NewtonCollision)
  | tree_collision_add_face (treeCollision : NewtonCollision) (vertexCount : Int)
      (vertices : List V) (strideInBytes : Nat) (faceAttribute : Int)
  | tree_collision_end_build (treeCollision : NewtonCollision) (optimize : Int)
deriving DecidableEq, Repr

/-- The loop `for (it = start; it != end; it += 3)`. A triangle iterator is an
index into the vertex sequence and `position` gives the `Vector3` found at
`(it + k).position()`. Each iteration copies three positions into `triangle`
and adds them as one face (`sizeof(float) * 3 = 12`). `none`: the fuel ran out
before `it` met `end`. -/
def tri_mesh_loop {V : Type} (position : Nat → V) (tree : NewtonCollision) (end_ : Nat) :
    Nat → Nat → List (NewtonCall V) → Option (List (NewtonCall V))
  | 0, _, _ => none
  | fuel + 1, it, calls =>
    if it = end_ then some calls
    else
      let triangle := [position (it + 0), position (it + 1), position (it + 2)]
      tri_mesh_loop position tree end_ fuel (it + 3)
        (calls ++ [NewtonCall.tree_collision_add_face tree 3 triangle 12 0])

/-- The member `SysNewton::shape_create_tri_mesh_static`. The Newton world is the list of
calls made on it so far; `alloc` stands for the pointer Newton returns from
`NewtonCreateTreeCollision`. Returns the shape and the calls. -/
def shape_create_tri_mesh_static {V : Type} (alloc : List (NewtonCall V) → NewtonCollision)
    (position : Nat → V) (fuel : Nat) (calls : List (NewtonCall V))
    (_shape : ACompCollisionShape) (start end_ : Nat) :
    Option (ACompCollisionShape × List (NewtonCall V)) :=
  let tree := alloc calls
  let calls1 := calls ++ [NewtonCall.create_tree_collision 0 tree]
  let calls2 := calls1 ++ [NewtonCall.tree_collision_begin_build tree]
  match tri_mesh_loop position tree end_ fuel start calls2 with
  | none => none
  | some calls3 =>
    let calls4 := calls3 ++ [NewtonCall.tree_collision_end_build tree 2]
    some ({ m_collision := some tree, m_shape := ECollisionShape.TERRAIN }, calls4)

/-- The face added for the triangle whose first vertex is at index `i`. -/
def tri_face {V : Type} (position : Nat → V) (tree : NewtonCollision) (i : Nat) :
    NewtonCall V :=
  NewtonCall.tree_collision_add_face tree 3
    [position i, position (i + 1), position (i + 2)] 12 0

/-! ## shader::assign_flat (Flat.cpp:70-122) -/

/-- The draw functions the source names. -/
inductive DrawFunc where
  | draw_ent_flat
deriving DecidableEq, Repr

/-- The aggregate `EntityToDraw{&draw_ent_flat, {&rData, &shader}}`: the draw
function and the user-data pointers, in the order written. -/
structure EntityToDraw (Ptr : Type) where
  m_draw : DrawFunc
  m_data : List Ptr
deriving DecidableEq, Repr

/-- The flat-shader context `ACtxDrawFlat` (Flat.h, not under src/), as far as
`assign_flat` looks at it: the address `&rData` and the addresses
`&(*rData.m_shaderDiffuse)` and `&(*rData.m_shaderUntextured)` of its two
shaders. -/
structure ACtxDrawFlat (Ptr : Type) where
  addr : Ptr
  m_shaderDiffuse : Ptr
  m_shaderUntextured : Ptr
deriving DecidableEq, Repr

/-- Modelled from the spec: `RenderGroup::Storage_t` (not under src/), an entt
storage of `EntityToDraw` keyed by entity, is the list of its (entity, entry)
pairs in insertion order. -/
abbrev Storage_t (Ptr : Type) := List (ActiveEnt × EntityToDraw Ptr)

/-- Whether the storage has an entry for `ent`. -/
def Storage_t.contains {Ptr : Type} (s : Storage_t Ptr) (ent : ActiveEnt) : Bool :=
  s.any (fun p => p.1 == ent)

/-- Modelled from the spec: the `emplace(ent, value)` member of the storage is
not under src/. Adds the entry for `ent` at the end; emplacing an entity the
storage already has is outside the contract of the container (`none`). -/
def Storage_t.emplace {Ptr : Type} (s : Storage_t Ptr) (ent : ActiveEnt)
    (value : EntityToDraw Ptr) : Option (Storage_t Ptr) :=
  if s.contains ent then none else some (s ++ [(ent, value)])

/-- The function `shader::assign_flat`. The loop `for (ActiveEnt ent : entities)`
is the recursion over the list; a storage pointer is `none` when it is
`nullptr` and otherwise the storage it points to, the two pointers naming
different storages; `viewOpaque` and `viewDiffuse` stand for the `contains`
queries of the two component views. Returns the two storages as they are after
the call. -/
def assign_flat {Ptr : Type} (viewOpaque viewDiffuse : ActiveEnt → Bool)
    (rData : ACtxDrawFlat Ptr) :
    List ActiveEnt → Option (Storage_t Ptr) → Option (Storage_t Ptr) →
      Option (Option (Storage_t Ptr) × Option (Storage_t Ptr))
  | [], pStorageOpaque, pStorageTransparent => some (pStorageOpaque, pStorageTransparent)
  | ent :: entities, pStorageOpaque, pStorageTransparent =>
    if viewOpaque ent then
      match pStorageOpaque with
      | none => assign_flat viewOpaque viewDiffuse rData entities none pStorageTransparent
      | some storage =>
        if viewDiffuse ent then
          match storage.emplace ent
              ⟨DrawFunc.draw_ent_flat, [rData.addr, rData.m_shaderDiffuse]⟩ with
          | none => none
          | some storage1 =>
            assign_flat viewOpaque viewDiffuse rData entities (some storage1)
              pStorageTransparent
        else
          match storage.emplace ent
              ⟨DrawFunc.draw_ent_flat, [rData.addr, rData.m_shaderUntextured]⟩ with
          | none => none
          | some storage1 =>
            assign_flat viewOpaque viewDiffuse rData entities (some storage1)
              pStorageTransparent
    else
      match pStorageTransparent with
      | none => assign_flat viewOpaque viewDiffuse rData entities pStorageOpaque none
      | some storage =>
        if viewDiffuse ent then
          match storage.emplace ent
              ⟨DrawFunc.draw_ent_flat, [rData.addr, rData.m_shaderDiffuse]⟩ with
          | none => none
          | some storage1 =>
            assign_flat viewOpaque viewDiffuse rData entities pStorageOpaque
              (some storage1)
        else
          match storage.emplace ent
              ⟨DrawFunc.draw_ent_flat, [rData.addr, rData.m_shaderUntextured]⟩ with
          | none => none
          | some storage1 =>
            assign_flat viewOpaque viewDiffuse rData entities pStorageOpaque
              (some storage1)

/-- The draw entry the claim describes for `ent`: drawn by `draw_ent_flat`, with
`m_shaderDiffuse` when `viewDiffuse` contains `ent` and `m_shaderUntextured`
otherwise. -/
def spec_flat_entry {Ptr : Type} (viewDiffuse : ActiveEnt → Bool) (rData : ACtxDrawFlat Ptr)
    (ent : ActiveEnt) : EntityToDraw Ptr :=
  ⟨DrawFunc.draw_ent_flat,
   [rData.addr, if viewDiffuse ent then rData.m_shaderDiffuse else rData.m_shaderUntextured]⟩

/-- Whether the storage behind a pointer has an entry for `ent` (`false` for a
null pointer). -/
def storage_has {Ptr : Type} (p : Option (Storage_t Ptr)) (ent : ActiveEnt) : Bool :=
  match p with
  | none => false
  | some s => s.contains ent

/-- The entries the storage behind a pointer holds (none for a null pointer). -/
def storage_entries {Ptr : Type} (p : Option (Storage_t Ptr)) : Storage_t Ptr :=
  match p with
  | none => []
  | some s => s

/-! ## Concrete inputs used to instantiate the theorems -/

/-- A builder with pipelines 0 (render) and 1 (camera), camera below render. -/
def exampleBuilder : TopTaskBuilder :=
  ⟨⟨[true, true]⟩, [none, some 0], []⟩

/-- A builder with pipelines 0 (render) and 1 (camera) in which the parent
registered for render is 2, an id that names no pipeline yet. -/
def danglingBuilder : TopTaskBuilder :=
  ⟨⟨[true, true, false]⟩, [some 2, some 0, none], []⟩

/-- Slots 0..3 hold the user input, the camera, the delta time and the shape
spawner; every other slot is empty. -/
def exampleTopData : TopData := fun i =>
  match i with
  | 0 => some TypeTag.UserInputHandler
  | 1 => some TypeTag.Camera
  | 2 => some TypeTag.float
  | 3 => some TypeTag.ACtxShapeSpawner
  | _ => none

/-- Rational scalars, a one-point matrix type. -/
def exampleOps : MagnumOps ℚ Unit :=
  ⟨id, fun a b => a - b, fun a b => a * b, fun a => -a, (), fun _ => (),
   fun _ => ⟨0, 0, 0⟩, fun _ => ⟨0, 0, 1⟩⟩

/-- Growth policy: double the capacity. -/
def exampleGrow (c : Nat) : Nat := 2 * c

/-- A drawing context with nothing in it. -/
def emptyDrawing : ACtxDrawing Unit :=
  ⟨⟨[]⟩, ⟨[]⟩, [], [], [], [], [], [], []⟩

/-- A scene with entities 0 and 2 alive (2 a child of 0) and id 1 free. -/
def exampleBasic : ACtxBasic Unit :=
  ⟨⟨[true, false, true]⟩, ⟨[none, none, some 0]⟩, []⟩

/-- A drawing context with one material. -/
def exampleDrawing : ACtxDrawing Unit :=
  ⟨⟨[]⟩, ⟨[true]⟩, [⟨[], []⟩], [], [], [], [], [], []⟩

/-- Entities 0 and 2 are opaque. -/
def exampleViewOpaque (e : ActiveEnt) : Bool := e % 2 == 0

/-- Entities 0 and 1 have a diffuse texture. -/
def exampleViewDiffuse (e : ActiveEnt) : Bool := decide (e < 2)

/-- A flat-shader context at address 100 with its shaders at 101 and 102. -/
def exampleFlat : ACtxDrawFlat Nat := ⟨100, 101, 102⟩

/-- A transparent storage that already holds entity 7. -/
def exampleTransparent : Option (Storage_t Nat) :=
  some [(7, ⟨DrawFunc.draw_ent_flat, [100, 102]⟩)]

/-- A builder with no pipelines at all. -/
def emptyBuilder : TopTaskBuilder := ⟨⟨[]⟩, [], []⟩

/-- Rational scalars, matrices stood for by natural numbers. -/
def exampleOpsNat : MagnumOps ℚ Nat :=
  ⟨id, fun a b => a - b, fun a b => a * b, fun a => -a, 0, fun _ => 0,
   fun _ => ⟨0, 0, 0⟩, fun _ => ⟨0, 0, 1⟩⟩

/-- A view update that adds one to the transform. -/
def exampleUpdateView (c : ACtxCameraController Nat Unit Unit) (_ : ℚ) :
    ACtxCameraController Nat Unit Unit :=
  { c with m_transform := c.m_transform + 1 }

/-- A move update that doubles the transform. -/
def exampleUpdateMove (c : ACtxCameraController Nat Unit Unit) (_ : ℚ) (_ : Bool) :
    ACtxCameraController Nat Unit Unit :=
  { c with m_transform := 2 * c.m_transform }

/-- Pipelines 0..4, stages Run = 1, Ready = 3, Modify = 2, Modify_ = 4, slots
10..14. -/
def exampleDecl : SceneDecl :=
  ⟨⟨1, 3, 2, 4⟩, ⟨0, 1⟩, ⟨2⟩, ⟨3⟩, ⟨4⟩, 10, 11, 12, 13, 14⟩

/-- Slots 10..14 filled: a controller with transform 5, a camera with transform
0, delta time 1, no spawn requests, button 0. -/
def exampleSlots : TopValues ℚ Nat Unit Unit Unit := fun i =>
  match i with
  | 10 => some (TopValue.camCtrl ⟨5, (), ()⟩)
  | 11 => some (TopValue.camera ⟨0, ()⟩)
  | 12 => some (TopValue.float 1)
  | 13 => some (TopValue.spawner ⟨[]⟩)
  | 14 => some (TopValue.button 0)
  | _ => none

/-! ## Theorems -/

theorem getD_set_true (l : List Bool) (i j : Nat) :
    (l.set i true).getD j false = (decide (j = i ∧ i < l.length) || l.getD j false) := by
  simp only [List.getD_eq_getElem?_getD, List.getElem?_set]
  by_cases h : i = j
  · subst h
    by_cases hl : i < l.length
    · simp [hl]
    · simp [hl, List.getElem?_eq_none (Nat.le_of_not_lt hl)]
  · have h2 : ¬ j = i := fun e => h e.symm
    simp [h, h2]

theorem getD_vec_resize_false (l : List Bool) (n j : Nat) (h : l.length ≤ n) :
    (vec_resize l n false).getD j false = l.getD j false := by
  unfold vec_resize
  rw [List.take_of_length_le h]
  simp only [List.getD_eq_getElem?_getD]
  by_cases hj : j < l.length
  · rw [List.getElem?_append_left hj]
  · have hj2 : l.length ≤ j := Nat.le_of_not_lt hj
    rw [List.getElem?_append_right hj2, List.getElem?_eq_none hj2]
    by_cases hk : j - l.length < n - l.length
    · simp [List.getElem?_replicate, hk]
    · simp [List.getElem?_replicate, hk]

theorem length_vec_resize {α : Type} (l : List α) (n : Nat) (d : α) :
    (vec_resize l n d).length = n := by
  unfold vec_resize
  simp only [List.length_append, List.length_take, List.length_replicate]
  omega

theorem findIdx_of_dense (bits : List Bool) :
    ∀ i, IdRegistry.Dense i bits → bits.findIdx (fun b => !b) = i := by
  induction bits with
  | nil =>
    intro i h
    have h0 := h 0
    simp at h0
    simp [h0]
  | cons b bs ih =>
    intro i h
    cases i with
    | zero =>
      have h0 := h 0
      simp at h0
      simp [List.findIdx_cons, h0]
    | succ k =>
      have h0 := h 0
      simp at h0
      have hk : IdRegistry.Dense k bs := by
        intro j
        have hj := h (j + 1)
        simpa using hj
      simp [List.findIdx_cons, h0, ih k hk]

theorem create_of_dense (grow : Nat → Nat) (r : IdRegistry) (i : Nat)
    (h : IdRegistry.Dense i r.m_exists) :
    (r.create grow).1 = i ∧ IdRegistry.Dense (i + 1) (r.create grow).2.m_exists := by
  have hi := findIdx_of_dense r.m_exists i h
  refine ⟨by simp [IdRegistry.create, hi], ?_⟩
  intro j
  simp only [IdRegistry.create, hi, IdRegistry.capacity]
  rw [getD_set_true]
  by_cases hl : i < r.m_exists.length
  · simp only [hl, if_true]
    rw [h j]
    by_cases hj : j = i
    · subst hj; simp [hl]
    · by_cases hj2 : j < i
      · simp [hj2, Nat.lt_succ_of_lt hj2]
      · have : ¬ j < i + 1 := by omega
        simp [hj, hj2, this]
  · simp only [hl, if_false]
    have hcap : r.m_exists.length ≤ max (grow r.m_exists.length) (r.m_exists.length + 1) := by
      omega
    rw [getD_vec_resize_false _ _ _ hcap, length_vec_resize, h j]
    have hil : i < max (grow r.m_exists.length) (r.m_exists.length + 1) := by
      have := @List.findIdx_le_length _ (fun b => !b) r.m_exists
      omega
    by_cases hj : j = i
    · subst hj; simp [hil]
    · by_cases hj2 : j < i
      · simp [hj2, Nat.lt_succ_of_lt hj2]
      · have : ¬ j < i + 1 := by omega
        simp [hj, hj2, this]

theorem create_materials_loop_dense (grow : Nat → Nat) :
    ∀ (k i : Nat) (ids : IdRegistry) (created : List MaterialId),
      IdRegistry.Dense i ids.m_exists →
      ∃ ids2, create_materials_loop grow k i ids created
                = some (ids2, created ++ List.range' i k)
              ∧ IdRegistry.Dense (i + k) ids2.m_exists := by
  intro k
  induction k with
  | zero =>
    intro i ids created h
    exact ⟨ids, by simp [create_materials_loop], by simpa using h⟩
  | succ k ih =>
    intro i ids created h
    obtain ⟨h1, h2⟩ := create_of_dense grow ids i h
    obtain ⟨ids2, e, d⟩ := ih (i + 1) (ids.create grow).2 (created ++ [(ids.create grow).1]) h2
    refine ⟨ids2, ?_, ?_⟩
    · simp only [create_materials_loop, h1, if_true]
      rw [← h1] at e ⊢
      rw [e]
      simp [List.range'_succ, h1]
    · have : i + (k + 1) = i + 1 + k := by omega
      rw [this]; exact d

/-- C1: called with a material-id registry that has no ids yet and a count
`n >= 0`, `create_materials` passes its assertion on every iteration, the ids
it creates are `0, 1, ..., n-1` in that order, the registry afterwards holds
exactly those ids, and `m_materials` has exactly `n` elements. -/
theorem create_materials_ids {Mesh : Type} (grow : Nat → Nat) (rDrawing : ACtxDrawing Mesh)
    (n : Nat) (hempty : ∀ j, rDrawing.m_materialIds.id_exists j = false) :
    ∃ d, create_materials grow rDrawing (n : Int) = some (d, List.range n)
      ∧ d.m_materials.length = n
      ∧ ∀ j, d.m_materialIds.id_exists j = decide (j < n) := by
  have hd : IdRegistry.Dense 0 rDrawing.m_materialIds.m_exists := by
    intro j
    have := hempty j
    simpa [IdRegistry.id_exists] using this
  obtain ⟨ids2, e, d⟩ := create_materials_loop_dense grow n 0 rDrawing.m_materialIds [] hd
  refine ⟨{ rDrawing with
              m_materialIds := ids2
              m_materials := vec_resize rDrawing.m_materials n ⟨[], []⟩ }, ?_, ?_, ?_⟩
  · simp only [create_materials, Int.toNat_ofNat, e]
    simp [List.range_eq_range']
  · simp [length_vec_resize]
  · intro j
    have := d j
    simpa [IdRegistry.id_exists] using this

/-! ### Facts about the id registry -/

theorem create_fst_lt_capacity (grow : Nat → Nat) (r : IdRegistry) :
    (r.create grow).1 < (r.create grow).2.capacity := by
  simp only [IdRegistry.create, IdRegistry.capacity, List.length_set]
  by_cases hl : r.m_exists.findIdx (fun b => !b) < r.m_exists.length
  · simp [hl]
  · simp only [hl, if_false, length_vec_resize]
    have := @List.findIdx_le_length _ (fun b => !b) r.m_exists
    omega

theorem capacity_le_create (grow : Nat → Nat) (r : IdRegistry) :
    r.capacity ≤ (r.create grow).2.capacity := by
  simp only [IdRegistry.create, IdRegistry.capacity, List.length_set]
  by_cases hl : r.m_exists.findIdx (fun b => !b) < r.m_exists.length
  · simp [hl]
  · simp only [hl, if_false, length_vec_resize]
    omega

theorem create_fst_not_exists (grow : Nat → Nat) (r : IdRegistry) :
    r.id_exists (r.create grow).1 = false := by
  simp only [IdRegistry.create, IdRegistry.id_exists, List.getD_eq_getElem?_getD]
  by_cases hl : r.m_exists.findIdx (fun b => !b) < r.m_exists.length
  · have h := @List.findIdx_getElem _ (fun b => !b) r.m_exists hl
    rw [List.getElem?_eq_getElem hl]
    simpa using h
  · rw [List.getElem?_eq_none (Nat.le_of_not_lt hl)]
    rfl

theorem create_id_exists (grow : Nat → Nat) (r : IdRegistry) (j : Nat) :
    (r.create grow).2.id_exists j = (decide (j = (r.create grow).1) || r.id_exists j) := by
  have hlt := create_fst_lt_capacity grow r
  simp only [IdRegistry.create, IdRegistry.capacity, List.length_set] at hlt
  simp only [IdRegistry.create, IdRegistry.id_exists, IdRegistry.capacity]
  rw [getD_set_true]
  by_cases hl : r.m_exists.findIdx (fun b => !b) < r.m_exists.length
  · simp [hl]
  · simp only [hl, if_false] at hlt ⊢
    have hcap : r.m_exists.length ≤ max (grow r.m_exists.length) (r.m_exists.length + 1) := by
      omega
    rw [getD_vec_resize_false _ _ _ hcap]
    simp [hlt]

/-! ### add_floor -/

theorem add_floor_spec {F M Mesh : Type} (ops : MagnumOps F M) (grow : Nat → Nat)
    (quick_add_mesh : String → Mesh)
    (rBasic : ACtxBasic M) (rDrawing : ACtxDrawing Mesh) (rSpawner : ACtxShapeSpawner F)
    (materialId : MaterialId) (hmat : materialId < rDrawing.m_materials.length) :
    ∃ res, add_floor ops grow quick_add_mesh rBasic rDrawing rSpawner materialId = some res
      ∧ res.floorRootEnt = (rBasic.m_activeIds.create grow).1
      ∧ res.floorMeshEnt = ((rBasic.m_activeIds.create grow).2.create grow).1
      ∧ res.rBasic.m_activeIds = ((rBasic.m_activeIds.create grow).2.create grow).2
      ∧ res.rBasic.m_scnGraph.m_entParent
          = ((vec_resize rBasic.m_scnGraph.m_entParent
                ((rBasic.m_activeIds.create grow).2.create grow).2.capacity none).set
              (rBasic.m_activeIds.create grow).1 none).set
              ((rBasic.m_activeIds.create grow).2.create grow).1
              (some (rBasic.m_activeIds.create grow).1)
      ∧ res.rDrawing.m_needDrawTf
          = ((bitvector_resize rDrawing.m_needDrawTf
                ((rBasic.m_activeIds.create grow).2.create grow).2.capacity).set
              (rBasic.m_activeIds.create grow).1 true).set
              ((rBasic.m_activeIds.create grow).2.create grow).1 true
      ∧ res.needDrawTf_sets
          = [(rBasic.m_activeIds.create grow).1, ((rBasic.m_activeIds.create grow).2.create grow).1]
      ∧ res.builder = ⟨none, 2, 2⟩
      ∧ res.bldFloorRoot = ⟨some (rBasic.m_activeIds.create grow).1, 1, 1⟩ := by
  have hM := create_fst_lt_capacity grow (rBasic.m_activeIds.create grow).2
  have hR : (rBasic.m_activeIds.create grow).1
      < ((rBasic.m_activeIds.create grow).2.create grow).2.capacity :=
    Nat.lt_of_lt_of_le (create_fst_lt_capacity grow rBasic.m_activeIds)
      (capacity_le_create grow _)
  have hD := create_fst_lt_capacity grow rDrawing.m_drawIds
  unfold add_floor
  simp only [List.getElem?_eq_getElem hmat, Option.bind_eq_bind, Option.some_bind,
    Option.pure_def, Option.bind_some, bind, pure]
  generalize rBasic.m_activeIds.create grow = c1 at *
  generalize c1.2.create grow = c2 at *
  generalize rDrawing.m_drawIds.create grow = c3 at *
  simp only [IdRegistry.capacity] at hM hR hD
  simp only [vec_assign, bitvector_set, LoggedBits.set,
    ACtxDrawing.resize_active, ACtxDrawing.resize_draw, ACtxSceneGraph.resize,
    bitvector_resize, length_vec_resize, SubtreeBuilder.add_child,
    SysSceneGraph.add_descendants, IdRegistry.capacity, hM, hR, hD, if_true,
    Option.some_bind, Option.bind_some, List.length_set, List.getElem?_eq_getElem]
  simp [length_vec_resize, hM, hR]

/-- C1 at `n = 4`, starting from an empty registry: the materials are `0..3`. -/
theorem create_materials_ids_witness :
    (∀ j, emptyDrawing.m_materialIds.id_exists j = false) ∧
    ∃ d, create_materials exampleGrow emptyDrawing ((4 : Nat) : Int) = some (d, List.range 4)
      ∧ d.m_materials.length = 4
      ∧ ∀ j, d.m_materialIds.id_exists j = decide (j < 4) :=
  ⟨fun _ => rfl,
   create_materials_ids exampleGrow emptyDrawing 4 (fun _ => rfl)⟩

/-- C3: given a valid material id, `add_floor` succeeds and allocates exactly
two active entities, `floorRootEnt` and `floorMeshEnt`: neither existed before,
they are distinct, and the active ids afterwards are the ones before plus these
two. In the scene graph afterwards the parent of `floorMeshEnt` is
`floorRootEnt` and the parent written for `floorRootEnt` is the hierarchy root.
Both subtree builders end with as many descendants added as declared: 2 of 2
under the hierarchy root, 1 of 1 under `floorRootEnt`. -/
theorem add_floor_allocates_and_links {F M Mesh : Type} (ops : MagnumOps F M)
    (grow : Nat → Nat) (quick_add_mesh : String → Mesh)
    (rBasic : ACtxBasic M) (rDrawing : ACtxDrawing Mesh) (rSpawner : ACtxShapeSpawner F)
    (materialId : MaterialId) (hmat : materialId < rDrawing.m_materials.length) :
    ∃ res, add_floor ops grow quick_add_mesh rBasic rDrawing rSpawner materialId = some res
      ∧ res.floorRootEnt ≠ res.floorMeshEnt
      ∧ rBasic.m_activeIds.id_exists res.floorRootEnt = false
      ∧ rBasic.m_activeIds.id_exists res.floorMeshEnt = false
      ∧ (∀ j, res.rBasic.m_activeIds.id_exists j
              = (decide (j = res.floorRootEnt) || decide (j = res.floorMeshEnt)
                  || rBasic.m_activeIds.id_exists j))
      ∧ res.floorRootEnt < res.rBasic.m_scnGraph.m_entParent.length
      ∧ res.floorMeshEnt < res.rBasic.m_scnGraph.m_entParent.length
      ∧ res.rBasic.m_scnGraph.parent res.floorMeshEnt = some res.floorRootEnt
      ∧ res.rBasic.m_scnGraph.parent res.floorRootEnt = none
      ∧ res.builder = ⟨none, 2, 2⟩
      ∧ res.bldFloorRoot = ⟨some res.floorRootEnt, 1, 1⟩ := by
  obtain ⟨res, hres, hroot, hmesh, hids, hpar, -, -, hb, hb2⟩ :=
    add_floor_spec ops grow quick_add_mesh rBasic rDrawing rSpawner materialId hmat
  have hM := create_fst_lt_capacity grow (rBasic.m_activeIds.create grow).2
  have hR : (rBasic.m_activeIds.create grow).1
      < ((rBasic.m_activeIds.create grow).2.create grow).2.capacity :=
    Nat.lt_of_lt_of_le (create_fst_lt_capacity grow rBasic.m_activeIds)
      (capacity_le_create grow _)
  have hf1 := create_fst_not_exists grow rBasic.m_activeIds
  have hf2 := create_fst_not_exists grow (rBasic.m_activeIds.create grow).2
  rw [create_id_exists] at hf2
  simp only [Bool.or_eq_false_iff, decide_eq_false_iff_not] at hf2
  have hne : (rBasic.m_activeIds.create grow).1 ≠ ((rBasic.m_activeIds.create grow).2.create grow).1 :=
    fun e => hf2.1 e.symm
  refine ⟨res, hres, ?_, ?_, ?_, ?_, ?_, ?_, ?_, ?_, hb, ?_⟩
  · rw [hroot, hmesh]; exact hne
  · rw [hroot]; exact hf1
  · rw [hmesh]; exact hf2.2
  · intro j
    rw [hids, hroot, hmesh, create_id_exists, create_id_exists]
    cases decide (j = (rBasic.m_activeIds.create grow).1) <;>
      cases decide (j = ((rBasic.m_activeIds.create grow).2.create grow).1) <;> simp
  · rw [hpar, hroot]; simpa [length_vec_resize] using hR
  · rw [hpar, hmesh]; simpa [length_vec_resize] using hM
  · simp only [ACtxSceneGraph.parent, hpar, hmesh, hroot, List.getD_eq_getElem?_getD]
    rw [List.getElem?_set_self (by simpa [length_vec_resize] using hM)]
    rfl
  · simp only [ACtxSceneGraph.parent, hpar, hroot, List.getD_eq_getElem?_getD]
    rw [List.getElem?_set_ne (fun e => hne e.symm),
      List.getElem?_set_self (by simpa [length_vec_resize] using hR)]
    rfl
  · rw [hb2, hroot]

/-- C3 on a scene with entities 0 and 2 alive and material 0. -/
theorem add_floor_allocates_and_links_witness :
    0 < exampleDrawing.m_materials.length ∧
    ∃ res, add_floor exampleOps exampleGrow (fun _ => ()) exampleBasic exampleDrawing ⟨[]⟩ 0
        = some res
      ∧ res.floorRootEnt ≠ res.floorMeshEnt
      ∧ exampleBasic.m_activeIds.id_exists res.floorRootEnt = false
      ∧ exampleBasic.m_activeIds.id_exists res.floorMeshEnt = false
      ∧ (∀ j, res.rBasic.m_activeIds.id_exists j
              = (decide (j = res.floorRootEnt) || decide (j = res.floorMeshEnt)
                  || exampleBasic.m_activeIds.id_exists j))
      ∧ res.floorRootEnt < res.rBasic.m_scnGraph.m_entParent.length
      ∧ res.floorMeshEnt < res.rBasic.m_scnGraph.m_entParent.length
      ∧ res.rBasic.m_scnGraph.parent res.floorMeshEnt = some res.floorRootEnt
      ∧ res.rBasic.m_scnGraph.parent res.floorRootEnt = none
      ∧ res.builder = ⟨none, 2, 2⟩
      ∧ res.bldFloorRoot = ⟨some res.floorRootEnt, 1, 1⟩ :=
  ⟨by decide,
   add_floor_allocates_and_links exampleOps exampleGrow (fun _ => ()) exampleBasic
     exampleDrawing ⟨[]⟩ 0 (by decide)⟩

/-- C4: given a valid material id, `add_floor` succeeds; afterwards the index
`floorMeshEnt` is within `m_needDrawTf` (whose size is the one `resize_active`
gave it), the bit at that index is set, and of the `set` calls `add_floor`
makes on `m_needDrawTf` (first `floorRootEnt`, then `floorMeshEnt`, two
different indices) exactly one targets `floorMeshEnt`. -/
theorem add_floor_needDrawTf_once {F M Mesh : Type} (ops : MagnumOps F M)
    (grow : Nat → Nat) (quick_add_mesh : String → Mesh)
    (rBasic : ACtxBasic M) (rDrawing : ACtxDrawing Mesh) (rSpawner : ACtxShapeSpawner F)
    (materialId : MaterialId) (hmat : materialId < rDrawing.m_materials.length) :
    ∃ res, add_floor ops grow quick_add_mesh rBasic rDrawing rSpawner materialId = some res
      ∧ res.rDrawing.m_needDrawTf.length = res.rBasic.m_activeIds.capacity
      ∧ res.floorMeshEnt < res.rDrawing.m_needDrawTf.length
      ∧ bitvector_test res.rDrawing.m_needDrawTf res.floorMeshEnt = true
      ∧ res.needDrawTf_sets = [res.floorRootEnt, res.floorMeshEnt]
      ∧ res.floorRootEnt ≠ res.floorMeshEnt
      ∧ res.needDrawTf_sets.count res.floorMeshEnt = 1 := by
  obtain ⟨res, hres, hroot, hmesh, hids, -, hbits, hsets, -, -⟩ :=
    add_floor_spec ops grow quick_add_mesh rBasic rDrawing rSpawner materialId hmat
  have hM := create_fst_lt_capacity grow (rBasic.m_activeIds.create grow).2
  have hf2 := create_fst_not_exists grow (rBasic.m_activeIds.create grow).2
  rw [create_id_exists] at hf2
  simp only [Bool.or_eq_false_iff, decide_eq_false_iff_not] at hf2
  have hne : (rBasic.m_activeIds.create grow).1 ≠ ((rBasic.m_activeIds.create grow).2.create grow).1 :=
    fun e => hf2.1 e.symm
  have hlen : res.rDrawing.m_needDrawTf.length = res.rBasic.m_activeIds.capacity := by
    rw [hbits, hids]
    simp [bitvector_resize, length_vec_resize]
  refine ⟨res, hres, hlen, ?_, ?_, ?_, ?_, ?_⟩
  · rw [hlen, hids, hmesh]; exact hM
  · simp only [bitvector_test, hbits, hmesh, List.getD_eq_getElem?_getD]
    rw [List.getElem?_set_self (by simpa [bitvector_resize, length_vec_resize] using hM)]
    rfl
  · rw [hsets, hroot, hmesh]
  · rw [hroot, hmesh]; exact hne
  · rw [hsets, hmesh]
    simp [List.count_cons, hne]

/-- C4 on a scene with entities 0 and 2 alive and material 0. -/
theorem add_floor_needDrawTf_once_witness :
    0 < exampleDrawing.m_materials.length ∧
    ∃ res, add_floor exampleOps exampleGrow (fun _ => ()) exampleBasic exampleDrawing ⟨[]⟩ 0
        = some res
      ∧ res.rDrawing.m_needDrawTf.length = res.rBasic.m_activeIds.capacity
      ∧ res.floorMeshEnt < res.rDrawing.m_needDrawTf.length
      ∧ bitvector_test res.rDrawing.m_needDrawTf res.floorMeshEnt = true
      ∧ res.needDrawTf_sets = [res.floorRootEnt, res.floorMeshEnt]
      ∧ res.floorRootEnt ≠ res.floorMeshEnt
      ∧ res.needDrawTf_sets.count res.floorMeshEnt = 1 :=
  ⟨by decide,
   add_floor_needDrawTf_once exampleOps exampleGrow (fun _ => ()) exampleBasic
     exampleDrawing ⟨[]⟩ 0 (by decide)⟩

/-! ### Task bodies -/

theorem thrower_func_fst {F M Ctl Other : Type} (ops : MagnumOps F M)
    (button_held : Ctl → EButtonControlIndex → Bool)
    (c : ACtxCameraController M Ctl Other) (rSpawner : ACtxShapeSpawner F)
    (btnThrow : EButtonControlIndex) :
    (thrower_func ops button_held c rSpawner btnThrow).1 = c := by
  unfold thrower_func
  split <;> rfl

/-- C5: the bodies of the two tasks that only declare `camCtrl(Ready)` leave
the camera controller as they found it, for every input; this includes the
thrower body, which takes the controller by mutable reference, whether or not
the throw button is held. -/
theorem ready_tasks_keep_controller {F M Ctl Other CamOther : Type} (ops : MagnumOps F M)
    (button_held : Ctl → EButtonControlIndex → Bool)
    (c : ACtxCameraController M Ctl Other) (cam : Camera M CamOther)
    (rSpawner : ACtxShapeSpawner F) (btnThrow : EButtonControlIndex) :
    (position_camera_func c cam).1 = c
    ∧ (thrower_func ops button_held c rSpawner btnThrow).1 = c := by
  refine ⟨rfl, ?_⟩
  unfold thrower_func
  split <;> rfl

/-- C10: the thrower body appends exactly one request when the throw button is
held and none otherwise. The request appended is a sphere of mass 1 and size
(1,1,1); the requests that were there keep their order and content, as a
prefix of the list afterwards. -/
theorem thrower_spawns_iff_held {F M Ctl Other : Type} (ops : MagnumOps F M)
    (button_held : Ctl → EButtonControlIndex → Bool)
    (c : ACtxCameraController M Ctl Other) (rSpawner : ACtxShapeSpawner F)
    (btnThrow : EButtonControlIndex) :
    ∃ sh : SpawnShape F,
      sh.m_shape = EShape.Sphere ∧ sh.m_mass = ops.lit 1
      ∧ sh.m_size = ⟨ops.lit 1, ops.lit 1, ops.lit 1⟩
      ∧ (thrower_func ops button_held c rSpawner btnThrow).2.m_spawnRequest
          = (if button_held c.m_controls btnThrow then rSpawner.m_spawnRequest ++ [sh]
             else rSpawner.m_spawnRequest)
      ∧ rSpawner.m_spawnRequest
          <+: (thrower_func ops button_held c rSpawner btnThrow).2.m_spawnRequest
      ∧ (thrower_func ops button_held c rSpawner btnThrow).2.m_spawnRequest.length
          = rSpawner.m_spawnRequest.length
            + (if button_held c.m_controls btnThrow then 1 else 0) := by
  refine ⟨{ m_position := Vector3.vsub ops (ops.translation c.m_transform)
                            (Vector3.vscale ops (ops.backward c.m_transform) (ops.lit 8))
            m_velocity := Vector3.vscale ops (Vector3.vneg ops (ops.backward c.m_transform))
                            (ops.lit 120)
            m_size := Vector3.splat (ops.lit 1)
            m_mass := ops.lit 1
            m_shape := EShape.Sphere }, rfl, rfl, rfl, ?_, ?_, ?_⟩
  · unfold thrower_func
    split <;> rfl
  · unfold thrower_func
    split
    · exact List.prefix_append _ _
    · exact List.prefix_refl _
  · unfold thrower_func
    split <;> simp

/-! ### Task descriptors -/

/-- C7: when the five pipelines named are pairwise distinct, each of the three
tasks has exactly one `run_on` pair and none is a self-wait: no `sync_with`
entry has the pipeline and stage of the task's `run_on`, whatever the numeric
values of the stages. -/
theorem tasks_not_self_wait (st : StageNames) (tgSR : PlSceneRenderer) (tgCmCt : PlCameraCtrl)
    (tgWin : PlWindowApp) (tgShSp : PlShapeSpawn)
    (idCamCtrl idCamera idDeltaTimeIn idSpawner idBtnThrow : TopDataId)
    (hdistinct : [tgSR.render, tgSR.camera, tgCmCt.camCtrl, tgWin.inputs,
                  tgShSp.spawnRequest].Nodup) :
    (task_position_camera st tgSR tgCmCt idCamCtrl idCamera).run_on.length = 1
    ∧ (task_position_camera st tgSR tgCmCt idCamCtrl idCamera).is_self_wait = false
    ∧ (task_move_camera st tgWin tgCmCt idCamCtrl idDeltaTimeIn).run_on.length = 1
    ∧ (task_move_camera st tgWin tgCmCt idCamCtrl idDeltaTimeIn).is_self_wait = false
    ∧ (task_thrower st tgWin tgCmCt tgShSp idCamCtrl idSpawner idBtnThrow).run_on.length = 1
    ∧ (task_thrower st tgWin tgCmCt tgShSp idCamCtrl idSpawner idBtnThrow).is_self_wait
        = false := by
  simp only [List.nodup_cons, List.mem_cons, List.mem_singleton, not_or, List.not_mem_nil,
    not_false_eq_true, List.nodup_nil, and_true] at hdistinct
  obtain ⟨⟨h1, h2, h3, h4⟩, ⟨h5, h6, h7⟩, ⟨h8, h9⟩, h10⟩ := hdistinct
  have h8b : ¬ tgWin.inputs = tgCmCt.camCtrl := fun e => h8 e.symm
  simp [task_position_camera, task_move_camera, task_thrower, Task.is_self_wait, h1, h2, h8b,
    h10]

/-- C7 with pipelines 0..4 and all four stage enumerators equal to 1. -/
theorem tasks_not_self_wait_witness :
    [(⟨0, 1⟩ : PlSceneRenderer).render, (⟨0, 1⟩ : PlSceneRenderer).camera,
      (⟨2⟩ : PlCameraCtrl).camCtrl, (⟨3⟩ : PlWindowApp).inputs,
      (⟨4⟩ : PlShapeSpawn).spawnRequest].Nodup
    ∧ (task_position_camera ⟨1, 1, 1, 1⟩ ⟨0, 1⟩ ⟨2⟩ 10 11).run_on.length = 1
    ∧ (task_position_camera ⟨1, 1, 1, 1⟩ ⟨0, 1⟩ ⟨2⟩ 10 11).is_self_wait = false
    ∧ (task_move_camera ⟨1, 1, 1, 1⟩ ⟨3⟩ ⟨2⟩ 10 12).run_on.length = 1
    ∧ (task_move_camera ⟨1, 1, 1, 1⟩ ⟨3⟩ ⟨2⟩ 10 12).is_self_wait = false
    ∧ (task_thrower ⟨1, 1, 1, 1⟩ ⟨3⟩ ⟨2⟩ ⟨4⟩ 10 13 14).run_on.length = 1
    ∧ (task_thrower ⟨1, 1, 1, 1⟩ ⟨3⟩ ⟨2⟩ ⟨4⟩ 10 13 14).is_self_wait = false :=
  ⟨by decide, tasks_not_self_wait ⟨1, 1, 1, 1⟩ ⟨0, 1⟩ ⟨2⟩ ⟨3⟩ ⟨4⟩ 10 11 12 13 14 (by decide)⟩

/-! ### setup_camera_ctrl: the parent it registers -/

theorem getD_vec_resize_none {α : Type} (l : List (Option α)) (n x : Nat) (y : α)
    (h : (vec_resize l n none).getD x none = some y) : l.getD x none = some y := by
  unfold vec_resize at h
  simp only [List.getD_eq_getElem?_getD] at h ⊢
  by_cases hx : x < (l.take n).length
  · rw [List.getElem?_append_left hx, List.getElem?_take] at h
    split at h
    · exact h
    · simp at h
  · have hx2 : (l.take n).length ≤ x := Nat.le_of_not_lt hx
    rw [List.getElem?_append_right hx2, List.getElem?_replicate] at h
    split at h <;> simp at h

theorem setup_camera_ctrl_spec (st : StageNames) (grow : Nat → Nat) (rBuilder : TopTaskBuilder)
    (topData : TopData) (idUserInput idCamera : TopDataId) (tgSR : PlSceneRenderer)
    (idCamCtrl : TopDataId)
    (hUI : topData idUserInput = some TypeTag.UserInputHandler) :
    setup_camera_ctrl st grow rBuilder topData idUserInput idCamera tgSR idCamCtrl
      = some
          { out :=
              { m_data := [idCamCtrl]
                m_pipelines := [(rBuilder.m_pipelineIds.create grow).1]
                m_tasks := [task_position_camera st tgSR ⟨(rBuilder.m_pipelineIds.create grow).1⟩
                              idCamCtrl idCamera] }
            rBuilder :=
              { m_pipelineIds := (rBuilder.m_pipelineIds.create grow).2
                m_pipelineParents :=
                  (vec_resize rBuilder.m_pipelineParents
                    (rBuilder.m_pipelineIds.create grow).2.capacity none).set
                    (rBuilder.m_pipelineIds.create grow).1 (some tgSR.render)
                m_tasks := rBuilder.m_tasks ++
                  [task_position_camera st tgSR ⟨(rBuilder.m_pipelineIds.create grow).1⟩
                     idCamCtrl idCamera] }
            topData := top_emplace topData idCamCtrl TypeTag.ACtxCameraController } := by
  have hlt := create_fst_lt_capacity grow rBuilder.m_pipelineIds
  simp [setup_camera_ctrl, top_get, hUI, TopTaskBuilder.create_pipeline,
    TopTaskBuilder.pipeline_parent, vec_assign, length_vec_resize, hlt]

/-- C6, as amended: on a builder in which `render` is an existing pipeline and
every registered parent is an existing pipeline, `setup_camera_ctrl` succeeds;
the `camCtrl` pipeline it creates did not exist before and is different from
`render`; afterwards the parent of `camCtrl` is `render`; and if the parent
chains had no cycle before, they have no cycle afterwards. -/
theorem setup_camera_ctrl_parent_acyclic (st : StageNames) (grow : Nat → Nat)
    (rBuilder : TopTaskBuilder) (topData : TopData) (idUserInput idCamera : TopDataId)
    (tgSR : PlSceneRenderer) (idCamCtrl : TopDataId)
    (hUI : topData idUserInput = some TypeTag.UserInputHandler)
    (hrender : rBuilder.m_pipelineIds.id_exists tgSR.render = true)
    (hwf : ∀ p q, rBuilder.parent p = some q → rBuilder.m_pipelineIds.id_exists q = true)
    (hac : rBuilder.Acyclic) :
    ∃ r camCtrl,
      setup_camera_ctrl st grow rBuilder topData idUserInput idCamera tgSR idCamCtrl = some r
      ∧ r.out.m_pipelines = [camCtrl]
      ∧ rBuilder.m_pipelineIds.id_exists camCtrl = false
      ∧ r.rBuilder.m_pipelineIds.id_exists camCtrl = true
      ∧ camCtrl ≠ tgSR.render
      ∧ r.rBuilder.parent camCtrl = some tgSR.render
      ∧ r.rBuilder.Acyclic := by
  have hspec := setup_camera_ctrl_spec st grow rBuilder topData idUserInput idCamera tgSR
    idCamCtrl hUI
  have hlt := create_fst_lt_capacity grow rBuilder.m_pipelineIds
  have hfresh := create_fst_not_exists grow rBuilder.m_pipelineIds
  have hne : (rBuilder.m_pipelineIds.create grow).1 ≠ tgSR.render := by
    intro e
    rw [e, hrender] at hfresh
    exact Bool.noConfusion hfresh
  refine ⟨_, (rBuilder.m_pipelineIds.create grow).1, hspec, rfl, hfresh, ?_, hne, ?_, ?_⟩
  · rw [create_id_exists]; simp
  · simp only [TopTaskBuilder.parent, List.getD_eq_getElem?_getD]
    rw [List.getElem?_set_self (by simpa [length_vec_resize] using hlt)]
    rfl
  · -- every step of the new relation ends outside camCtrl, and is an old step
    -- unless it starts at camCtrl
    have hstep : ∀ x y,
        ((vec_resize rBuilder.m_pipelineParents
            (rBuilder.m_pipelineIds.create grow).2.capacity none).set
            (rBuilder.m_pipelineIds.create grow).1 (some tgSR.render)).getD x none = some y →
        y ≠ (rBuilder.m_pipelineIds.create grow).1
        ∧ (x ≠ (rBuilder.m_pipelineIds.create grow).1 → rBuilder.parent x = some y) := by
      intro x y hxy
      simp only [List.getD_eq_getElem?_getD] at hxy
      by_cases hx : (rBuilder.m_pipelineIds.create grow).1 = x
      · subst hx
        rw [List.getElem?_set_self (by simpa [length_vec_resize] using hlt)] at hxy
        simp only [Option.getD_some, Option.some.injEq] at hxy
        exact ⟨fun e => hne (e ▸ hxy.symm ▸ rfl), fun h => absurd rfl h⟩
      · rw [List.getElem?_set_ne hx] at hxy
        have hold : rBuilder.parent x = some y := by
          apply getD_vec_resize_none _ (rBuilder.m_pipelineIds.create grow).2.capacity
          simpa only [List.getD_eq_getElem?_getD] using hxy
        refine ⟨?_, fun _ => hold⟩
        intro e
        have := hwf x y hold
        rw [e, hfresh] at this
        exact Bool.noConfusion this
    intro p hp
    have key : ∀ a b,
        Relation.TransGen
          (fun x y =>
            ((vec_resize rBuilder.m_pipelineParents
                (rBuilder.m_pipelineIds.create grow).2.capacity none).set
                (rBuilder.m_pipelineIds.create grow).1 (some tgSR.render)).getD x none
              = some y) a b →
        b ≠ (rBuilder.m_pipelineIds.create grow).1
        ∧ (a ≠ (rBuilder.m_pipelineIds.create grow).1 →
            Relation.TransGen (fun x y => rBuilder.parent x = some y) a b) := by
      intro a b hab
      induction hab with
      | single h =>
        exact ⟨(hstep _ _ h).1, fun ha => Relation.TransGen.single ((hstep _ _ h).2 ha)⟩
      | tail _ h ih =>
        exact ⟨(hstep _ _ h).1,
          fun ha => Relation.TransGen.tail (ih.2 ha) ((hstep _ _ h).2 ih.1)⟩
    have hk := key p p hp
    exact hac p (hk.2 hk.1)

/-- On `danglingBuilder`, whose parent chains have no cycle but where render has
the not yet existing id 2 as parent, `setup_camera_ctrl` hands out id 2 for
`camCtrl` and the chain render, camCtrl, render is a cycle afterwards. -/
theorem dangling_parent_closes_cycle :
    danglingBuilder.Acyclic
    ∧ danglingBuilder.m_pipelineIds.id_exists 0 = true
    ∧ ∃ r, setup_camera_ctrl ⟨1, 3, 1, 1⟩ exampleGrow danglingBuilder exampleTopData 0 1
              ⟨0, 1⟩ 4 = some r
        ∧ r.out.m_pipelines = [2]
        ∧ ¬ r.rBuilder.Acyclic := by
  refine ⟨?_, rfl, ?_⟩
  · have hstep : ∀ p q, danglingBuilder.parent p = some q →
        ([1, 2, 0] : List Nat).getD q 0 < ([1, 2, 0] : List Nat).getD p 0 := by
      intro p q h
      match p with
      | 0 =>
        simp only [TopTaskBuilder.parent, danglingBuilder, List.getD_cons_zero,
          Option.some.injEq] at h
        subst h; decide
      | 1 =>
        simp only [TopTaskBuilder.parent, danglingBuilder, List.getD_cons_succ,
          List.getD_cons_zero, Option.some.injEq] at h
        subst h; decide
      | n + 2 =>
        cases n <;> simp [TopTaskBuilder.parent, danglingBuilder] at h
    intro p hp
    have hdesc : ∀ a b,
        Relation.TransGen (fun x y => danglingBuilder.parent x = some y) a b →
        ([1, 2, 0] : List Nat).getD b 0 < ([1, 2, 0] : List Nat).getD a 0 := by
      intro a b hab
      induction hab with
      | single h => exact hstep _ _ h
      | tail _ h ih => exact Nat.lt_trans (hstep _ _ h) ih
    exact Nat.lt_irrefl _ (hdesc p p hp)
  · refine ⟨_, setup_camera_ctrl_spec ⟨1, 3, 1, 1⟩ exampleGrow danglingBuilder exampleTopData
      0 1 ⟨0, 1⟩ 4 rfl, rfl, ?_⟩
    intro hac
    apply hac 0
    exact Relation.TransGen.tail (b := 2) (Relation.TransGen.single rfl) rfl

theorem unregistered_render_is_own_parent :
    emptyBuilder.Acyclic
    ∧ (∀ p q, emptyBuilder.parent p = some q → emptyBuilder.m_pipelineIds.id_exists q = true)
    ∧ ∃ r, setup_camera_ctrl ⟨1, 3, 1, 1⟩ exampleGrow emptyBuilder exampleTopData 0 1
              ⟨0, 1⟩ 4 = some r
        ∧ r.out.m_pipelines = [(⟨0, 1⟩ : PlSceneRenderer).render]
        ∧ ¬ r.rBuilder.Acyclic := by
  have hno : ∀ p q, ¬ emptyBuilder.parent p = some q := by
    intro p q h
    simp [TopTaskBuilder.parent, emptyBuilder] at h
  refine ⟨?_, fun p q h => absurd h (hno p q), ?_⟩
  · intro p hp
    cases hp with
    | single h => exact hno _ _ h
    | tail _ h => exact hno _ _ h
  · refine ⟨_, setup_camera_ctrl_spec ⟨1, 3, 1, 1⟩ exampleGrow emptyBuilder exampleTopData
      0 1 ⟨0, 1⟩ 4 rfl, rfl, ?_⟩
    intro hac
    exact hac 0 (Relation.TransGen.single rfl)

/-- C6 as worded does not hold. First, on `danglingBuilder` the parent chains
have no cycle before the call and render (0) exists, yet after the call they
have one: render had the not yet existing id 2 as parent and `camCtrl` is
created with that id. Second, on `emptyBuilder`, where no parent is registered
at all but the id 0 given as render names no pipeline, the pipeline created is
0 itself: `camCtrl` is render and becomes its own parent. -/
theorem setup_camera_ctrl_parent_counterexample :
    (danglingBuilder.Acyclic
      ∧ danglingBuilder.m_pipelineIds.id_exists 0 = true
      ∧ ∃ r, setup_camera_ctrl ⟨1, 3, 1, 1⟩ exampleGrow danglingBuilder exampleTopData 0 1
                ⟨0, 1⟩ 4 = some r
          ∧ r.out.m_pipelines = [2]
          ∧ ¬ r.rBuilder.Acyclic)
    ∧ (emptyBuilder.Acyclic
      ∧ (∀ p q, emptyBuilder.parent p = some q →
            emptyBuilder.m_pipelineIds.id_exists q = true)
      ∧ ∃ r, setup_camera_ctrl ⟨1, 3, 1, 1⟩ exampleGrow emptyBuilder exampleTopData 0 1
                ⟨0, 1⟩ 4 = some r
          ∧ r.out.m_pipelines = [(⟨0, 1⟩ : PlSceneRenderer).render]
          ∧ ¬ r.rBuilder.Acyclic) :=
  ⟨dangling_parent_closes_cycle, unregistered_render_is_own_parent⟩

/-! ### Positional binding of the task arguments -/

/-- C8: let the three setup functions run in order on slots where
`idUserInput`, `idCamera`, `idDeltaTimeIn` and `idSpawner` hold a
`UserInputHandler`, a `Camera`, a `float` and an `ACtxShapeSpawner`, and where
the two ids handed out to the new sessions (`idCamCtrl`, `idBtnThrow`) name
different, empty slots. Then all three succeed, each contributes exactly its
task, the argument lists have 2, 2 and 3 ids, as many as the task functions
have parameters, and in the resulting slots the i-th id of each list holds the
type of the i-th parameter. -/
theorem tasks_bind_positionally (st : StageNames) (grow : Nat → Nat)
    (rBuilder : TopTaskBuilder) (topData : TopData)
    (idUserInput idCamera idDeltaTimeIn idSpawner idCamCtrl idBtnThrow : TopDataId)
    (tgSR : PlSceneRenderer) (tgWin : PlWindowApp) (tgShSp : PlShapeSpawn)
    (hUI : topData idUserInput = some TypeTag.UserInputHandler)
    (hCam : topData idCamera = some TypeTag.Camera)
    (hDt : topData idDeltaTimeIn = some TypeTag.float)
    (hSp : topData idSpawner = some TypeTag.ACtxShapeSpawner)
    (hC : topData idCamCtrl = none) (hB : topData idBtnThrow = none)
    (hne : idBtnThrow ≠ idCamCtrl) :
    ∃ r1 r2 r3 t1 t2 t3,
      setup_camera_ctrl st grow rBuilder topData idUserInput idCamera tgSR idCamCtrl = some r1
      ∧ setup_camera_free st r1.rBuilder r1.topData tgWin idDeltaTimeIn
          ⟨(rBuilder.m_pipelineIds.create grow).1⟩ idCamCtrl = some r2
      ∧ setup_thrower st r2.rBuilder r2.topData tgWin ⟨(rBuilder.m_pipelineIds.create grow).1⟩
          idCamCtrl tgShSp idSpawner idBtnThrow = some r3
      ∧ r1.out.m_tasks = [t1] ∧ r2.out.m_tasks = [t2] ∧ r3.out.m_tasks = [t3]
      ∧ r3.rBuilder.m_tasks = rBuilder.m_tasks ++ [t1, t2, t3]
      ∧ t1.args.length = 2 ∧ t1.params.length = 2 ∧ t1.binds r3.topData
      ∧ t2.args.length = 2 ∧ t2.params.length = 2 ∧ t2.binds r3.topData
      ∧ t3.args.length = 3 ∧ t3.params.length = 3 ∧ t3.binds r3.topData
      ∧ r3.topData idCamCtrl = some TypeTag.ACtxCameraController
      ∧ r3.topData idCamera = some TypeTag.Camera
      ∧ r3.topData idDeltaTimeIn = some TypeTag.float
      ∧ r3.topData idSpawner = some TypeTag.ACtxShapeSpawner
      ∧ r3.topData idBtnThrow = some TypeTag.EButtonControlIndex := by
  have hspec := setup_camera_ctrl_spec st grow rBuilder topData idUserInput idCamera tgSR
    idCamCtrl hUI
  have n1 : idCamera ≠ idCamCtrl := fun e => by rw [e, hC] at hCam; exact Option.noConfusion hCam
  have n2 : idCamera ≠ idBtnThrow := fun e => by rw [e, hB] at hCam; exact Option.noConfusion hCam
  have n3 : idDeltaTimeIn ≠ idCamCtrl := fun e => by rw [e, hC] at hDt; exact Option.noConfusion hDt
  have n4 : idDeltaTimeIn ≠ idBtnThrow := fun e => by rw [e, hB] at hDt; exact Option.noConfusion hDt
  have n5 : idSpawner ≠ idCamCtrl := fun e => by rw [e, hC] at hSp; exact Option.noConfusion hSp
  have n6 : idSpawner ≠ idBtnThrow := fun e => by rw [e, hB] at hSp; exact Option.noConfusion hSp
  have n7 : idCamCtrl ≠ idBtnThrow := fun e => hne e.symm
  refine ⟨_, _,
    { out :=
        { m_data := [idBtnThrow]
          m_pipelines := []
          m_tasks := [task_thrower st tgWin ⟨(rBuilder.m_pipelineIds.create grow).1⟩ tgShSp
                        idCamCtrl idSpawner idBtnThrow] }
      rBuilder :=
        { m_pipelineIds := (rBuilder.m_pipelineIds.create grow).2
          m_pipelineParents :=
            (vec_resize rBuilder.m_pipelineParents
              (rBuilder.m_pipelineIds.create grow).2.capacity none).set
              (rBuilder.m_pipelineIds.create grow).1 (some tgSR.render)
          m_tasks := rBuilder.m_tasks ++
            [task_position_camera st tgSR ⟨(rBuilder.m_pipelineIds.create grow).1⟩
               idCamCtrl idCamera] ++
            [task_move_camera st tgWin ⟨(rBuilder.m_pipelineIds.create grow).1⟩
               idCamCtrl idDeltaTimeIn] ++
            [task_thrower st tgWin ⟨(rBuilder.m_pipelineIds.create grow).1⟩ tgShSp
               idCamCtrl idSpawner idBtnThrow] }
      topData := top_emplace (top_emplace topData idCamCtrl TypeTag.ACtxCameraController)
                   idBtnThrow TypeTag.EButtonControlIndex },
    task_position_camera st tgSR ⟨(rBuilder.m_pipelineIds.create grow).1⟩ idCamCtrl idCamera,
    task_move_camera st tgWin ⟨(rBuilder.m_pipelineIds.create grow).1⟩ idCamCtrl idDeltaTimeIn,
    task_thrower st tgWin ⟨(rBuilder.m_pipelineIds.create grow).1⟩ tgShSp idCamCtrl idSpawner
      idBtnThrow,
    hspec, rfl, ?_, rfl, rfl, rfl, ?_⟩
  · simp [setup_thrower, top_get, top_emplace]
  · simp [Task.binds, task_position_camera, task_move_camera, task_thrower, top_emplace,
      n1, n2, n3, n4, n5, n6, n7, hCam, hDt, hSp]

/-! ### shape_create_tri_mesh_static -/

theorem tri_mesh_loop_faces {V : Type} (position : Nat → V) (tree : NewtonCollision) :
    ∀ (k fuel it : Nat) (calls : List (NewtonCall V)), k < fuel →
      tri_mesh_loop position tree (it + 3 * k) fuel it calls
        = some (calls ++ (List.range k).map (fun j => tri_face position tree (it + 3 * j))) := by
  intro k
  induction k with
  | zero =>
    intro fuel it calls hf
    cases fuel with
    | zero => omega
    | succ f => simp [tri_mesh_loop]
  | succ k ih =>
    intro fuel it calls hf
    cases fuel with
    | zero => omega
    | succ f =>
      have hne : ¬ it = it + 3 * (k + 1) := by omega
      have hend : it + 3 * (k + 1) = (it + 3) + 3 * k := by omega
      simp only [tri_mesh_loop, hne, if_false]
      rw [hend, ih f (it + 3) _ (by omega)]
      rw [List.range_succ_eq_map]
      simp only [List.map_cons, List.map_map, List.append_assoc, List.singleton_append,
        Nat.mul_zero, Nat.add_zero, tri_face]
      congr 3
      apply List.map_congr_left
      intro j _
      simp only [Function.comp, tri_face]
      have : it + 3 + 3 * j = it + 3 * (j + 1) := by omega
      rw [this]

/-- C9: on a range `[start, start + 3k)` and with enough fuel for its `k`
iterations, `shape_create_tri_mesh_static` returns; the calls it makes are, in
order, one `create_tree_collision` (shape id 0), `begin_build` on the tree
created, `k` `add_face` calls of 3 vertices each, the j-th with the positions
of vertices `3j, 3j+1, 3j+2` of the range in that order, and `end_build`
(optimize 2); afterwards the shape holds the created tree and `TERRAIN`. -/
theorem shape_create_tri_mesh_static_faces {V : Type}
    (alloc : List (NewtonCall V) → NewtonCollision) (position : Nat → V)
    (fuel : Nat) (calls : List (NewtonCall V)) (shape : ACompCollisionShape)
    (start k : Nat) (hfuel : k < fuel) :
    shape_create_tri_mesh_static alloc position fuel calls shape start (start + 3 * k)
      = some
          ({ m_collision := some (alloc calls), m_shape := ECollisionShape.TERRAIN },
           calls
            ++ [NewtonCall.create_tree_collision 0 (alloc calls),
                NewtonCall.tree_collision_begin_build (alloc calls)]
            ++ (List.range k).map (fun j =>
                  NewtonCall.tree_collision_add_face (alloc calls) 3
                    [position (start + 3 * j), position (start + 3 * j + 1),
                     position (start + 3 * j + 2)] 12 0)
            ++ [NewtonCall.tree_collision_end_build (alloc calls) 2]) := by
  simp only [shape_create_tri_mesh_static]
  rw [tri_mesh_loop_faces position (alloc calls) k fuel start _ hfuel]
  simp [tri_face]

/-- C9 on six vertices `0..5`: two faces, `[0,1,2]` and `[3,4,5]`. -/
theorem shape_create_tri_mesh_static_faces_witness :
    2 < 3 ∧
    shape_create_tri_mesh_static (fun _ => 7) (fun i => i) 3 [] ⟨none, ECollisionShape.NONE⟩
        0 (0 + 3 * 2)
      = some
          ({ m_collision := some 7, m_shape := ECollisionShape.TERRAIN },
           [] ++ [NewtonCall.create_tree_collision 0 7,
                  NewtonCall.tree_collision_begin_build 7]
            ++ (List.range 2).map (fun j =>
                  NewtonCall.tree_collision_add_face 7 3
                    [0 + 3 * j, 0 + 3 * j + 1, 0 + 3 * j + 2] 12 0)
            ++ [NewtonCall.tree_collision_end_build 7 2]) :=
  ⟨by decide,
   shape_create_tri_mesh_static_faces (fun _ => 7) (fun i => i) 3 [] ⟨none, ECollisionShape.NONE⟩
     0 2 (by decide)⟩

/-- C6 on a builder with pipelines 0 (render) and 1 (camera, child of render):
the new pipeline is 2 and its parent is 0. -/
theorem setup_camera_ctrl_parent_acyclic_witness :
    exampleTopData 0 = some TypeTag.UserInputHandler
    ∧ exampleBuilder.m_pipelineIds.id_exists (⟨0, 1⟩ : PlSceneRenderer).render = true
    ∧ (∀ p q, exampleBuilder.parent p = some q → exampleBuilder.m_pipelineIds.id_exists q = true)
    ∧ exampleBuilder.Acyclic
    ∧ ∃ r camCtrl,
        setup_camera_ctrl ⟨1, 3, 1, 1⟩ exampleGrow exampleBuilder exampleTopData 0 1 ⟨0, 1⟩ 4
          = some r
        ∧ r.out.m_pipelines = [camCtrl]
        ∧ exampleBuilder.m_pipelineIds.id_exists camCtrl = false
        ∧ r.rBuilder.m_pipelineIds.id_exists camCtrl = true
        ∧ camCtrl ≠ (⟨0, 1⟩ : PlSceneRenderer).render
        ∧ r.rBuilder.parent camCtrl = some (⟨0, 1⟩ : PlSceneRenderer).render
        ∧ r.rBuilder.Acyclic := by
  have hstep : ∀ p q, exampleBuilder.parent p = some q → p = 1 ∧ q = 0 := by
    intro p q h
    match p with
    | 0 => simp [TopTaskBuilder.parent, exampleBuilder] at h
    | 1 =>
      simp only [TopTaskBuilder.parent, exampleBuilder, List.getD_cons_succ,
        List.getD_cons_zero, Option.some.injEq] at h
      exact ⟨rfl, h.symm⟩
    | n + 2 => simp [TopTaskBuilder.parent, exampleBuilder] at h
  have hwf : ∀ p q, exampleBuilder.parent p = some q →
      exampleBuilder.m_pipelineIds.id_exists q = true := by
    intro p q h
    rw [(hstep p q h).2]
    rfl
  have hac : exampleBuilder.Acyclic := by
    intro p hp
    have hsrc : ∀ a b, Relation.TransGen (fun x y => exampleBuilder.parent x = some y) a b →
        a = 1 ∧ b = 0 := by
      intro a b hab
      induction hab with
      | single h => exact hstep _ _ h
      | tail _ h ih => exact ⟨ih.1, (hstep _ _ h).2⟩
    have h := hsrc p p hp
    exact absurd (h.1.symm.trans h.2) (by decide)
  exact ⟨rfl, rfl, hwf, hac,
    setup_camera_ctrl_parent_acyclic ⟨1, 3, 1, 1⟩ exampleGrow exampleBuilder exampleTopData 0 1
      ⟨0, 1⟩ 4 rfl rfl hwf hac⟩

/-- C8 on the example slots, with `idCamCtrl = 4` and `idBtnThrow = 5`. -/
theorem tasks_bind_positionally_witness :
    exampleTopData 0 = some TypeTag.UserInputHandler
    ∧ exampleTopData 1 = some TypeTag.Camera
    ∧ exampleTopData 2 = some TypeTag.float
    ∧ exampleTopData 3 = some TypeTag.ACtxShapeSpawner
    ∧ exampleTopData 4 = none ∧ exampleTopData 5 = none ∧ (5 : TopDataId) ≠ 4
    ∧ ∃ r1 r2 r3 t1 t2 t3,
      setup_camera_ctrl ⟨1, 3, 1, 1⟩ exampleGrow exampleBuilder exampleTopData 0 1 ⟨0, 1⟩ 4
        = some r1
      ∧ setup_camera_free ⟨1, 3, 1, 1⟩ r1.rBuilder r1.topData ⟨5⟩ 2
          ⟨(exampleBuilder.m_pipelineIds.create exampleGrow).1⟩ 4 = some r2
      ∧ setup_thrower ⟨1, 3, 1, 1⟩ r2.rBuilder r2.topData ⟨5⟩
          ⟨(exampleBuilder.m_pipelineIds.create exampleGrow).1⟩ 4 ⟨6⟩ 3 5 = some r3
      ∧ r1.out.m_tasks = [t1] ∧ r2.out.m_tasks = [t2] ∧ r3.out.m_tasks = [t3]
      ∧ r3.rBuilder.m_tasks = exampleBuilder.m_tasks ++ [t1, t2, t3]
      ∧ t1.args.length = 2 ∧ t1.params.length = 2 ∧ t1.binds r3.topData
      ∧ t2.args.length = 2 ∧ t2.params.length = 2 ∧ t2.binds r3.topData
      ∧ t3.args.length = 3 ∧ t3.params.length = 3 ∧ t3.binds r3.topData
      ∧ r3.topData 4 = some TypeTag.ACtxCameraController
      ∧ r3.topData 1 = some TypeTag.Camera
      ∧ r3.topData 2 = some TypeTag.float
      ∧ r3.topData 3 = some TypeTag.ACtxShapeSpawner
      ∧ r3.topData 5 = some TypeTag.EButtonControlIndex :=
  ⟨rfl, rfl, rfl, rfl, rfl, rfl, by decide,
   tasks_bind_positionally ⟨1, 3, 1, 1⟩ exampleGrow exampleBuilder exampleTopData 0 1 2 3 4 5
     ⟨0, 1⟩ ⟨5⟩ ⟨6⟩ rfl rfl rfl rfl rfl rfl (by decide)⟩

/-! ### assign_flat -/

theorem storage_contains_append_singleton {Ptr : Type} (s : Storage_t Ptr) (e x : ActiveEnt)
    (v : EntityToDraw Ptr) (hs : s.contains x = false) (hne : x ≠ e) :
    Storage_t.contains (s ++ [(e, v)]) x = false := by
  simp only [Storage_t.contains] at hs ⊢
  simp [List.any_append, hs, Ne.symm hne]

theorem assign_flat_closed_form {Ptr : Type} (viewOpaque viewDiffuse : ActiveEnt → Bool)
    (rData : ACtxDrawFlat Ptr) :
    ∀ (entities : List ActiveEnt) (pO pT : Option (Storage_t Ptr)),
      entities.Nodup →
      (∀ e ∈ entities, storage_has pO e = false) →
      (∀ e ∈ entities, storage_has pT e = false) →
      assign_flat viewOpaque viewDiffuse rData entities pO pT
        = some
            (pO.map (fun s => s ++ (entities.filter viewOpaque).map
                      (fun e => (e, spec_flat_entry viewDiffuse rData e))),
             pT.map (fun s => s ++ (entities.filter (fun e => !viewOpaque e)).map
                      (fun e => (e, spec_flat_entry viewDiffuse rData e)))) := by
  intro entities
  induction entities with
  | nil =>
    intro pO pT _ _ _
    cases pO <;> cases pT <;> simp [assign_flat]
  | cons ent rest ih =>
    intro pO pT hnodup hO hT
    have hnd := List.nodup_cons.mp hnodup
    have hOr : ∀ e ∈ rest, storage_has pO e = false :=
      fun e he => hO e (List.mem_cons_of_mem _ he)
    have hTr : ∀ e ∈ rest, storage_has pT e = false :=
      fun e he => hT e (List.mem_cons_of_mem _ he)
    have hne : ∀ e ∈ rest, e ≠ ent := fun e he h => hnd.1 (h ▸ he)
    by_cases hop : viewOpaque ent = true
    · cases pO with
      | none =>
        simp only [assign_flat, hop, if_true]
        rw [ih none pT hnd.2 hOr hTr]
        simp [List.filter_cons, hop]
      | some s =>
        have hs : s.contains ent = false := hO ent (List.mem_cons_self _ _)
        have hfresh : ∀ v, ∀ e ∈ rest, storage_has (some (s ++ [(ent, v)])) e = false :=
          fun v e he => storage_contains_append_singleton s ent e v (hOr e he) (hne e he)
        by_cases hd : viewDiffuse ent = true
        · simp only [assign_flat, hop, hd, if_true, Storage_t.emplace, hs, Bool.false_eq_true,
            if_false]
          rw [ih _ pT hnd.2 (hfresh _) hTr]
          simp [List.filter_cons, hop, spec_flat_entry, hd]
        · simp only [assign_flat, hop, hd, if_true, Storage_t.emplace, hs, Bool.false_eq_true,
            if_false]
          rw [ih _ pT hnd.2 (hfresh _) hTr]
          simp [List.filter_cons, hop, spec_flat_entry, hd]
    · cases pT with
      | none =>
        simp only [assign_flat, hop, if_false]
        rw [ih pO none hnd.2 hOr hTr]
        simp [List.filter_cons, hop]
      | some s =>
        have hs : s.contains ent = false := hT ent (List.mem_cons_self _ _)
        have hfresh : ∀ v, ∀ e ∈ rest, storage_has (some (s ++ [(ent, v)])) e = false :=
          fun v e he => storage_contains_append_singleton s ent e v (hTr e he) (hne e he)
        by_cases hd : viewDiffuse ent = true
        · simp only [assign_flat, hop, hd, if_true, Storage_t.emplace, hs, Bool.false_eq_true,
            if_false]
          rw [ih pO _ hnd.2 hOr (hfresh _)]
          simp [List.filter_cons, hop, spec_flat_entry, hd]
        · simp only [assign_flat, hop, hd, if_true, Storage_t.emplace, hs, Bool.false_eq_true,
            if_false]
          rw [ih pO _ hnd.2 hOr (hfresh _)]
          simp [List.filter_cons, hop, spec_flat_entry, hd]

theorem storage_contains_append_map {Ptr : Type} (s : Storage_t Ptr) (xs : List ActiveEnt)
    (f : ActiveEnt → EntityToDraw Ptr) (e : ActiveEnt) :
    Storage_t.contains (s ++ xs.map (fun x => (x, f x))) e = (s.contains e || xs.contains e) := by
  induction xs generalizing s with
  | nil => simp [Storage_t.contains]
  | cons x rest ih =>
    have h := ih (s ++ [(x, f x)])
    simp only [List.append_assoc, List.singleton_append] at h
    rw [List.map_cons, h]
    simp only [Storage_t.contains, List.any_append, List.any_cons, List.any_nil, Bool.or_false,
      List.contains_cons, Bool.or_assoc]
    rw [Bool.beq_comm]

theorem storage_mem_append_map {Ptr : Type} (s : Storage_t Ptr) (xs : List ActiveEnt)
    (f : ActiveEnt → EntityToDraw Ptr) (e : ActiveEnt) (v : EntityToDraw Ptr)
    (hmem : (e, v) ∈ s ++ xs.map (fun x => (x, f x))) :
    (e, v) ∈ s ∨ (e ∈ xs ∧ v = f e) := by
  rcases List.mem_append.mp hmem with h | h
  · exact Or.inl h
  · obtain ⟨x, hx, hxe⟩ := List.mem_map.mp h
    have h1 : x = e := congrArg Prod.fst hxe
    have h2 : f x = v := congrArg Prod.snd hxe
    subst h1
    exact Or.inr ⟨hx, h2.symm⟩

theorem storage_contains_of_mem {Ptr : Type} (s : Storage_t Ptr) (e : ActiveEnt)
    (v : EntityToDraw Ptr) (h : (e, v) ∈ s) : s.contains e = true := by
  simp only [Storage_t.contains, List.any_eq_true]
  exact ⟨(e, v), h, by simp⟩

theorem storage_has_after {Ptr : Type} (p : Option (Storage_t Ptr)) (xs : List ActiveEnt)
    (f : ActiveEnt → EntityToDraw Ptr) (e : ActiveEnt) :
    storage_has (p.map (fun s => s ++ xs.map (fun x => (x, f x)))) e
      = (storage_has p e || (p.isSome && xs.contains e)) := by
  cases p with
  | none => rfl
  | some s => simp [storage_has, storage_contains_append_map]

theorem storage_entries_after {Ptr : Type} (p : Option (Storage_t Ptr)) (xs : List ActiveEnt)
    (f : ActiveEnt → EntityToDraw Ptr) (e : ActiveEnt) (v : EntityToDraw Ptr)
    (hmem : (e, v) ∈ storage_entries (p.map (fun s => s ++ xs.map (fun x => (x, f x))))) :
    (e, v) ∈ storage_entries p ∨ (e ∈ xs ∧ v = f e) := by
  cases p with
  | none => simp [storage_entries] at hmem
  | some s => exact storage_mem_append_map s xs f e v hmem

theorem storage_entries_prefix_after {Ptr : Type} (p : Option (Storage_t Ptr))
    (xs : List ActiveEnt) (f : ActiveEnt → EntityToDraw Ptr) :
    storage_entries p <+: storage_entries (p.map (fun s => s ++ xs.map (fun x => (x, f x)))) := by
  cases p with
  | none => exact List.prefix_refl _
  | some s => exact List.prefix_append _ _

theorem storage_has_of_entry {Ptr : Type} (p : Option (Storage_t Ptr)) (e : ActiveEnt)
    (v : EntityToDraw Ptr) (h : (e, v) ∈ storage_entries p) : storage_has p e = true := by
  cases p with
  | none => simp [storage_entries] at h
  | some s => exact storage_contains_of_mem s e v h

theorem contains_filter (q : ActiveEnt → Bool) (xs : List ActiveEnt) (e : ActiveEnt)
    (he : e ∈ xs) : (xs.filter q).contains e = q e := by
  cases hq : q e with
  | false =>
    rw [Bool.eq_false_iff]
    intro h
    have := (List.mem_filter.mp (List.mem_of_elem_eq_true h)).2
    rw [hq] at this
    exact Bool.noConfusion this
  | true => exact List.elem_eq_true_of_mem (List.mem_filter.mpr ⟨he, hq⟩)

/-- C11: let the entities of the list be pairwise distinct and none of them be
in either storage yet. Then `assign_flat` returns, leaves a null pointer null,
and for every entity `e` of the list: afterwards `e` is in the opaque storage
exactly when `viewOpaque` contains `e` and `pStorageOpaque` is non-null, in the
transparent storage exactly when `viewOpaque` does not contain `e` and
`pStorageTransparent` is non-null, never in both, and the entry it has is the
one drawn by `draw_ent_flat` with `m_shaderDiffuse` when `viewDiffuse` contains
`e` and `m_shaderUntextured` otherwise. With a null opaque storage an opaque
entity is not put into the transparent storage. With both storages null both
stay null. The entries the storages had are kept in front, and every entry
that is new belongs to an entity of the list. -/
theorem assign_flat_partitions {Ptr : Type} (viewOpaque viewDiffuse : ActiveEnt → Bool)
    (rData : ACtxDrawFlat Ptr) (entities : List ActiveEnt)
    (pStorageOpaque pStorageTransparent : Option (Storage_t Ptr))
    (hnodup : entities.Nodup)
    (hO : ∀ e ∈ entities, storage_has pStorageOpaque e = false)
    (hT : ∀ e ∈ entities, storage_has pStorageTransparent e = false) :
    ∃ pO pT,
      assign_flat viewOpaque viewDiffuse rData entities pStorageOpaque pStorageTransparent
        = some (pO, pT)
      ∧ pO.isSome = pStorageOpaque.isSome
      ∧ pT.isSome = pStorageTransparent.isSome
      ∧ (∀ e ∈ entities, storage_has pO e = (viewOpaque e && pStorageOpaque.isSome))
      ∧ (∀ e ∈ entities, storage_has pT e = (!viewOpaque e && pStorageTransparent.isSome))
      ∧ (∀ e ∈ entities, ¬ (storage_has pO e = true ∧ storage_has pT e = true))
      ∧ (∀ e ∈ entities, ∀ v,
          (e, v) ∈ storage_entries pO ∨ (e, v) ∈ storage_entries pT →
          v = spec_flat_entry viewDiffuse rData e)
      ∧ (pStorageOpaque = none → ∀ e ∈ entities, viewOpaque e = true →
          storage_has pT e = false)
      ∧ (pStorageOpaque = none → pStorageTransparent = none → pO = none ∧ pT = none)
      ∧ storage_entries pStorageOpaque <+: storage_entries pO
      ∧ storage_entries pStorageTransparent <+: storage_entries pT
      ∧ (∀ x v, (x, v) ∈ storage_entries pO →
          (x, v) ∈ storage_entries pStorageOpaque ∨ x ∈ entities)
      ∧ (∀ x v, (x, v) ∈ storage_entries pT →
          (x, v) ∈ storage_entries pStorageTransparent ∨ x ∈ entities) := by
  have hcf := assign_flat_closed_form viewOpaque viewDiffuse rData entities pStorageOpaque
    pStorageTransparent hnodup hO hT
  have hasO : ∀ e ∈ entities,
      storage_has (pStorageOpaque.map (fun s => s ++ (entities.filter viewOpaque).map
        (fun e => (e, spec_flat_entry viewDiffuse rData e)))) e
        = (viewOpaque e && pStorageOpaque.isSome) := by
    intro e he
    rw [storage_has_after, hO e he, contains_filter viewOpaque entities e he, Bool.false_or,
      Bool.and_comm]
  have hasT : ∀ e ∈ entities,
      storage_has (pStorageTransparent.map
        (fun s => s ++ (entities.filter (fun e => !viewOpaque e)).map
          (fun e => (e, spec_flat_entry viewDiffuse rData e)))) e
        = (!viewOpaque e && pStorageTransparent.isSome) := by
    intro e he
    rw [storage_has_after, hT e he, contains_filter (fun e => !viewOpaque e) entities e he,
      Bool.false_or, Bool.and_comm]
  refine ⟨_, _, hcf, ?_, ?_, hasO, hasT, ?_, ?_, ?_, ?_, ?_, ?_, ?_, ?_⟩
  · cases pStorageOpaque <;> rfl
  · cases pStorageTransparent <;> rfl
  · intro e he h
    rw [hasO e he, hasT e he] at h
    cases hv : viewOpaque e <;> simp [hv] at h
  · intro e he v hv
    rcases hv with h | h
    · rcases storage_entries_after _ _ _ e v h with h1 | h1
      · have := storage_has_of_entry _ e v h1
        rw [hO e he] at this
        exact Bool.noConfusion this
      · exact h1.2
    · rcases storage_entries_after _ _ _ e v h with h1 | h1
      · have := storage_has_of_entry _ e v h1
        rw [hT e he] at this
        exact Bool.noConfusion this
      · exact h1.2
  · intro _ e he hv
    rw [hasT e he, hv]
    rfl
  · intro h1 h2
    subst h1; subst h2
    exact ⟨rfl, rfl⟩
  · exact storage_entries_prefix_after _ _ _
  · exact storage_entries_prefix_after _ _ _
  · intro x v h
    rcases storage_entries_after _ _ _ x v h with h1 | h1
    · exact Or.inl h1
    · exact Or.inr (List.mem_filter.mp h1.1).1
  · intro x v h
    rcases storage_entries_after _ _ _ x v h with h1 | h1
    · exact Or.inl h1
    · exact Or.inr (List.mem_filter.mp h1.1).1

/-- C11 on entities 0..3, an empty opaque storage and a transparent storage
holding entity 7: 0 and 2 go to the opaque storage, 1 and 3 to the transparent
one. -/
theorem assign_flat_partitions_witness :
    ([0, 1, 2, 3] : List ActiveEnt).Nodup
    ∧ (∀ e ∈ ([0, 1, 2, 3] : List ActiveEnt),
        storage_has (some [] : Option (Storage_t Nat)) e = false)
    ∧ (∀ e ∈ ([0, 1, 2, 3] : List ActiveEnt), storage_has exampleTransparent e = false)
    ∧ ∃ pO pT,
      assign_flat exampleViewOpaque exampleViewDiffuse exampleFlat [0, 1, 2, 3] (some [])
          exampleTransparent = some (pO, pT)
      ∧ pO.isSome = (some [] : Option (Storage_t Nat)).isSome
      ∧ pT.isSome = exampleTransparent.isSome
      ∧ (∀ e ∈ ([0, 1, 2, 3] : List ActiveEnt),
          storage_has pO e
            = (exampleViewOpaque e && (some [] : Option (Storage_t Nat)).isSome))
      ∧ (∀ e ∈ ([0, 1, 2, 3] : List ActiveEnt),
          storage_has pT e = (!exampleViewOpaque e && exampleTransparent.isSome))
      ∧ (∀ e ∈ ([0, 1, 2, 3] : List ActiveEnt),
          ¬ (storage_has pO e = true ∧ storage_has pT e = true))
      ∧ (∀ e ∈ ([0, 1, 2, 3] : List ActiveEnt), ∀ v,
          (e, v) ∈ storage_entries pO ∨ (e, v) ∈ storage_entries pT →
          v = spec_flat_entry exampleViewDiffuse exampleFlat e)
      ∧ ((some [] : Option (Storage_t Nat)) = none →
          ∀ e ∈ ([0, 1, 2, 3] : List ActiveEnt), exampleViewOpaque e = true →
          storage_has pT e = false)
      ∧ ((some [] : Option (Storage_t Nat)) = none → exampleTransparent = none →
          pO = none ∧ pT = none)
      ∧ storage_entries (some [] : Option (Storage_t Nat)) <+: storage_entries pO
      ∧ storage_entries exampleTransparent <+: storage_entries pT
      ∧ (∀ x v, (x, v) ∈ storage_entries pO →
          (x, v) ∈ storage_entries (some [] : Option (Storage_t Nat))
            ∨ x ∈ ([0, 1, 2, 3] : List ActiveEnt))
      ∧ (∀ x v, (x, v) ∈ storage_entries pT →
          (x, v) ∈ storage_entries exampleTransparent
            ∨ x ∈ ([0, 1, 2, 3] : List ActiveEnt)) :=
  ⟨by decide, by decide, by decide,
   assign_flat_partitions exampleViewOpaque exampleViewDiffuse exampleFlat [0, 1, 2, 3]
     (some []) exampleTransparent (by decide) (by decide) (by decide)⟩

/-! ### The consumers of the camera controller see what the producer wrote -/

/-- C2: let the slots named by the three declarations hold a controller `c`, a
camera `cam`, the delta time `dt`, a spawner and the throw button, and let the
three tasks run once each, in any order in which no task declaring `Ready` on
a pipeline runs before a task declaring `Modify` on it. Then the tick
completes; the controller slot holds what the body of "Move Camera controller"
wrote, `update_move (update_view c dt) dt true`; the camera slot holds `cam`
with `m_transform` replaced by the `m_transform` of that written controller
and every other member unchanged; and the thrower has run on that written
controller. Also, running the two bodies directly one after the other gives
the same camera. -/
theorem consumers_observe_controller_write {F M Ctl Other CamOther : Type}
    (env : SceneDecl) (ops : MagnumOps F M)
    (update_view : ACtxCameraController M Ctl Other → F → ACtxCameraController M Ctl Other)
    (update_move : ACtxCameraController M Ctl Other → F → Bool →
                     ACtxCameraController M Ctl Other)
    (button_held : Ctl → EButtonControlIndex → Bool)
    (slots : TopValues F M Ctl Other CamOther)
    (c : ACtxCameraController M Ctl Other) (dt : F) (cam : Camera M CamOther)
    (sp : ACtxShapeSpawner F) (btn : EButtonControlIndex)
    (hC : slots env.idCamCtrl = some (TopValue.camCtrl c))
    (hCam : slots env.idCamera = some (TopValue.camera cam))
    (hDt : slots env.idDeltaTimeIn = some (TopValue.float dt))
    (hSp : slots env.idSpawner = some (TopValue.spawner sp))
    (hB : slots env.idBtnThrow = some (TopValue.button btn))
    (sched : List SceneTask)
    (hperm : sched.Perm [SceneTask.move_camera, SceneTask.position_camera, SceneTask.thrower])
    (hord : respects_order env sched) :
    (position_camera_func (move_camera_func update_view update_move c dt) cam).2
        = ⟨(update_move (update_view c dt) dt true).m_transform, cam.m_other⟩
    ∧ ∃ slots1,
        run_tasks env ops update_view update_move button_held sched slots = some slots1
        ∧ slots1 env.idCamCtrl = some (TopValue.camCtrl (update_move (update_view c dt) dt true))
        ∧ slots1 env.idCamera
            = some (TopValue.camera
                ⟨(update_move (update_view c dt) dt true).m_transform, cam.m_other⟩)
        ∧ slots1 env.idSpawner
            = some (TopValue.spawner
                (thrower_func ops button_held (update_move (update_view c dt) dt true) sp
                  btn).2)
        ∧ slots1 env.idDeltaTimeIn = some (TopValue.float dt)
        ∧ slots1 env.idBtnThrow = some (TopValue.button btn) := by
  refine ⟨rfl, ?_⟩
  have n1 : env.idCamera ≠ env.idCamCtrl := fun e => by rw [e, hC] at hCam; simp at hCam
  have n2 : env.idDeltaTimeIn ≠ env.idCamCtrl := fun e => by rw [e, hC] at hDt; simp at hDt
  have n3 : env.idSpawner ≠ env.idCamCtrl := fun e => by rw [e, hC] at hSp; simp at hSp
  have n4 : env.idBtnThrow ≠ env.idCamCtrl := fun e => by rw [e, hC] at hB; simp at hB
  have n5 : env.idDeltaTimeIn ≠ env.idCamera := fun e => by rw [e, hCam] at hDt; simp at hDt
  have n6 : env.idSpawner ≠ env.idCamera := fun e => by rw [e, hCam] at hSp; simp at hSp
  have n7 : env.idBtnThrow ≠ env.idCamera := fun e => by rw [e, hCam] at hB; simp at hB
  have n8 : env.idSpawner ≠ env.idDeltaTimeIn := fun e => by rw [e, hDt] at hSp; simp at hSp
  have n9 : env.idBtnThrow ≠ env.idDeltaTimeIn := fun e => by rw [e, hDt] at hB; simp at hB
  have n10 : env.idBtnThrow ≠ env.idSpawner := fun e => by rw [e, hSp] at hB; simp at hB
  have hthr := thrower_func_fst ops button_held (update_move (update_view c dt) dt true) sp btn
  have hlen := hperm.length_eq
  rcases sched with _ | ⟨a, _ | ⟨b, _ | ⟨d, _ | ⟨e, rest⟩⟩⟩⟩ <;> simp at hlen
  cases a <;> cases b <;> cases d <;>
    first
    | exact absurd hperm (by decide)
    | (exfalso
       simp [respects_order, must_precede, SceneTask.descriptor, task_position_camera,
         task_move_camera, task_thrower] at hord
       done)
    | simp [run_tasks, dispatch, top_read, top_write, SceneTask.descriptor, SceneTask.func,
        task_position_camera, task_move_camera, task_thrower, move_camera_task,
        position_camera_task, thrower_task, hC, hCam, hDt, hSp, hB, n1, n2, n3, n4, n5, n6,
        n7, n8, n9, n10, n1.symm, n2.symm, n3.symm, n4.symm, n5.symm, n6.symm, n7.symm,
        n8.symm, n9.symm, n10.symm, move_camera_func, position_camera_func, hthr]

/-- C2 on the example slots with the order move, thrower, position: the
controller goes from transform 5 to 12 and the camera ends with transform
12. -/
theorem consumers_observe_controller_write_witness :
    exampleSlots exampleDecl.idCamCtrl = some (TopValue.camCtrl ⟨5, (), ()⟩)
    ∧ exampleSlots exampleDecl.idCamera = some (TopValue.camera ⟨0, ()⟩)
    ∧ exampleSlots exampleDecl.idDeltaTimeIn = some (TopValue.float 1)
    ∧ exampleSlots exampleDecl.idSpawner = some (TopValue.spawner ⟨[]⟩)
    ∧ exampleSlots exampleDecl.idBtnThrow = some (TopValue.button 0)
    ∧ [SceneTask.move_camera, SceneTask.thrower, SceneTask.position_camera].Perm
        [SceneTask.move_camera, SceneTask.position_camera, SceneTask.thrower]
    ∧ respects_order exampleDecl
        [SceneTask.move_camera, SceneTask.thrower, SceneTask.position_camera]
    ∧ (position_camera_func
          (move_camera_func exampleUpdateView exampleUpdateMove ⟨5, (), ()⟩ 1)
          (⟨0, ()⟩ : Camera Nat Unit)).2
        = ⟨(exampleUpdateMove (exampleUpdateView ⟨5, (), ()⟩ 1) 1 true).m_transform, ()⟩
    ∧ ∃ slots1,
        run_tasks exampleDecl exampleOpsNat exampleUpdateView exampleUpdateMove
            (fun _ _ => true)
            [SceneTask.move_camera, SceneTask.thrower, SceneTask.position_camera] exampleSlots
          = some slots1
        ∧ slots1 exampleDecl.idCamCtrl
            = some (TopValue.camCtrl (exampleUpdateMove (exampleUpdateView ⟨5, (), ()⟩ 1) 1 true))
        ∧ slots1 exampleDecl.idCamera
            = some (TopValue.camera
                ⟨(exampleUpdateMove (exampleUpdateView ⟨5, (), ()⟩ 1) 1 true).m_transform, ()⟩)
        ∧ slots1 exampleDecl.idSpawner
            = some (TopValue.spawner
                (thrower_func exampleOpsNat (fun _ _ => true)
                  (exampleUpdateMove (exampleUpdateView ⟨5, (), ()⟩ 1) 1 true) ⟨[]⟩ 0).2)
        ∧ slots1 exampleDecl.idDeltaTimeIn = some (TopValue.float 1)
        ∧ slots1 exampleDecl.idBtnThrow = some (TopValue.button 0) :=
  ⟨rfl, rfl, rfl, rfl, rfl, by decide, by unfold respects_order; decide,
   consumers_observe_controller_write exampleDecl exampleOpsNat exampleUpdateView
     exampleUpdateMove (fun _ _ => true) exampleSlots ⟨5, (), ()⟩ 1 ⟨0, ()⟩ ⟨[]⟩ 0
     rfl rfl rfl rfl rfl [SceneTask.move_camera, SceneTask.thrower, SceneTask.position_camera]
     (by decide) (by unfold respects_order; decide)⟩

end OspMagnum
